import Mathlib

/-!
Verification development for the fabric Erisc Data Mover (EDM) kernel
`ttnn/cpp/ttnn/operations/ccl/kernels/edm_fabric/fabric_erisc_datamover.cpp`.

The kernel's helper headers (`fabric_erisc_datamover_channels.hpp`,
`edm_fabric_worker_adapters.hpp`, `fabric_edm_packet_header.hpp`,
`fabric_edm_packet_transmission.hpp`) are not part of the source tree that is
being verified; the definitions coming from them are modelled from the design
specification and are marked `Modelled from the spec:` in their doc comments.
Everything else is a direct translation of `fabric_erisc_datamover.cpp`.
-/

namespace EdmFabric

/-- Modelled from the spec: pointer arithmetic is performed modulo a
power of two wider than the buffer count; the spec suggests 32-bit
counters, so the modulus is 2^32 = 4294967296. -/
def PTR_MOD : Nat := 4294967296

/-- Modelled from the spec: `ChannelBufferPointer` (from
`fabric_erisc_datamover_channels.hpp`, not in src) is a monotonically
increasing counter modulo `PTR_MOD`; the buffer count `N` only enters
through `get_buffer_index`. -/
structure ChannelBufferPointer (N : Nat) where
  counter : Nat
deriving DecidableEq

namespace ChannelBufferPointer

variable {N : Nat}

/-- Modelled from the spec: advance the pointer by one (mod `PTR_MOD`). -/
def increment (p : ChannelBufferPointer N) : ChannelBufferPointer N :=
  ⟨(p.counter + 1) % PTR_MOD⟩

/-- Modelled from the spec: advance the pointer by `k` (mod `PTR_MOD`). -/
def increment_n (p : ChannelBufferPointer N) (k : Nat) : ChannelBufferPointer N :=
  ⟨(p.counter + k) % PTR_MOD⟩

/-- Modelled from the spec: slot index, the counter modulo the buffer count. -/
def get_buffer_index (p : ChannelBufferPointer N) : Nat :=
  p.counter % N

/-- Modelled from the spec: `distance_behind(other) = (other.counter −
this.counter) mod 2^bits`. -/
def distance_behind (p o : ChannelBufferPointer N) : Nat :=
  (o.counter + (PTR_MOD - p.counter % PTR_MOD)) % PTR_MOD

/-- Modelled from the spec: `is_caught_up_to(other) = counter == other.counter`. -/
def is_caught_up_to (p o : ChannelBufferPointer N) : Bool :=
  p.counter == o.counter

/-- Modelled from the spec: raw counter accessor. -/
def get_ptr (p : ChannelBufferPointer N) : Nat :=
  p.counter

/-- A pointer is well formed when its counter is reduced modulo `PTR_MOD`. -/
def Wf (p : ChannelBufferPointer N) : Prop :=
  p.counter < PTR_MOD

lemma wf_increment (p : ChannelBufferPointer N) : p.increment.Wf := by
  have h : 0 < PTR_MOD := by decide
  exact Nat.mod_lt _ h

lemma wf_increment_n (p : ChannelBufferPointer N) (k : Nat) : (p.increment_n k).Wf := by
  have h : 0 < PTR_MOD := by decide
  exact Nat.mod_lt _ h

lemma distance_behind_lt (p o : ChannelBufferPointer N) :
    p.distance_behind o < PTR_MOD := by
  have h : 0 < PTR_MOD := by decide
  exact Nat.mod_lt _ h

lemma distance_behind_eq_zero_iff {p o : ChannelBufferPointer N}
    (hp : p.Wf) (ho : o.Wf) : p.distance_behind o = 0 ↔ p.counter = o.counter := by
  simp only [Wf, distance_behind, PTR_MOD] at *
  omega

lemma distance_behind_self {p : ChannelBufferPointer N} (hp : p.Wf) :
    p.distance_behind p = 0 :=
  (distance_behind_eq_zero_iff hp hp).mpr rfl

lemma distance_behind_increment_right {p o : ChannelBufferPointer N}
    (hp : p.Wf) (ho : o.Wf) (h : p.distance_behind o + 1 < PTR_MOD) :
    p.distance_behind o.increment = p.distance_behind o + 1 := by
  simp only [Wf, distance_behind, increment, PTR_MOD] at *
  omega

lemma distance_behind_increment_left {p o : ChannelBufferPointer N}
    (hp : p.Wf) (ho : o.Wf) (h : 1 ≤ p.distance_behind o) :
    p.increment.distance_behind o = p.distance_behind o - 1 := by
  simp only [Wf, distance_behind, increment, PTR_MOD] at *
  omega

lemma distance_behind_increment_n_right {p o : ChannelBufferPointer N} (k : Nat)
    (hp : p.Wf) (ho : o.Wf) (h : p.distance_behind o + k < PTR_MOD) :
    p.distance_behind (o.increment_n k) = p.distance_behind o + k := by
  simp only [Wf, distance_behind, increment_n, PTR_MOD] at *
  omega

lemma distance_behind_increment_n_left {p o : ChannelBufferPointer N} (k : Nat)
    (hp : p.Wf) (ho : o.Wf) (h : k ≤ p.distance_behind o) :
    (p.increment_n k).distance_behind o = p.distance_behind o - k := by
  simp only [Wf, distance_behind, increment_n, PTR_MOD] at *
  omega

end ChannelBufferPointer

/-- Modelled from the spec: the chip-level send command of a packet header
(`fabric_edm_packet_header.hpp`, not in src); value 0 is unicast. -/
inductive ChipSendType where
  | CHIP_UNICAST
  | CHIP_MULTICAST
deriving DecidableEq

/-- Modelled from the spec: the packet header fields the data mover engine
inspects (`fabric_edm_packet_header.hpp`, not in src): routing fields
(destination mesh id, destination device id), the chip send type, the
multicast hop-depth counters for the four directions, the source-channel id
and the payload size. -/
structure PacketHeader where
  dest_mesh_id : Nat
  dest_chip_id : Nat
  chip_send_type : ChipSendType
  east_hops : Nat
  west_hops : Nat
  north_hops : Nat
  south_hops : Nat
  src_ch_id : Nat
  payload_size_bytes : Nat
deriving DecidableEq

/-- Identity of the chip the engine runs on (destination mesh/device id
comparison target). -/
structure NodeId where
  mesh_id : Nat
  chip_id : Nat
deriving DecidableEq

/-- Modelled from the spec: consume locally iff the destination mesh/device id
equals this node's id, or this node lies within a multicast target range
encoded by the remaining hop-depth counters (from
`fabric_edm_packet_transmission.hpp`, not in src). -/
def packet_must_be_consumed_locally (node : NodeId) (h : PacketHeader) : Bool :=
  match h.chip_send_type with
  | .CHIP_UNICAST => h.dest_mesh_id == node.mesh_id && h.dest_chip_id == node.chip_id
  | .CHIP_MULTICAST =>
      h.east_hops > 0 || h.west_hops > 0 || h.north_hops > 0 || h.south_hops > 0

/-- Modelled from the spec: forward iff the destination id differs from this
node's, or (for a multicast) some direction's hop-depth counter is still
nonzero after the per-hop decrement (from
`fabric_edm_packet_transmission.hpp`, not in src). -/
def packet_must_be_forwarded_to_next_chip (node : NodeId) (h : PacketHeader) : Bool :=
  match h.chip_send_type with
  | .CHIP_UNICAST => !(h.dest_mesh_id == node.mesh_id && h.dest_chip_id == node.chip_id)
  | .CHIP_MULTICAST =>
      h.east_hops > 1 || h.west_hops > 1 || h.north_hops > 1 || h.south_hops > 1

/-- Local-forward classification of a packet (enum `PacketLocalForwardType`). -/
inductive PacketLocalForwardType where
  | PACKET_FORWARD_INVALID
  | PACKET_FORWARD_LOCAL_ONLY
  | PACKET_FORWARD_REMOTE_ONLY
  | PACKET_FORWARD_LOCAL_AND_REMOTE
deriving DecidableEq

/-- Translation of `get_packet_local_forward_type`: the classification is the
two-bit value `packet_needs_forwarding << 1 | local_chip_is_packet_destination`. -/
def get_packet_local_forward_type (node : NodeId) (h : PacketHeader) :
    PacketLocalForwardType :=
  let local_chip_is_packet_destination := packet_must_be_consumed_locally node h
  let packet_needs_forwarding := packet_must_be_forwarded_to_next_chip node h
  match packet_needs_forwarding, local_chip_is_packet_destination with
  | false, false => .PACKET_FORWARD_INVALID
  | false, true => .PACKET_FORWARD_LOCAL_ONLY
  | true, false => .PACKET_FORWARD_REMOTE_ONLY
  | true, true => .PACKET_FORWARD_LOCAL_AND_REMOTE

/-- Modelled from the spec: the downstream EDM connection adapter
(`WorkerToFabricEdmSender`, `edm_fabric_worker_adapters.hpp`, not in src):
a capacity flag plus the stream of packets handed to the next hop. -/
structure WorkerToFabricEdmSender where
  edm_space_available : Bool
  forwarded : List PacketHeader
deriving DecidableEq

/-- Modelled from the spec: capacity query used by the receiver before
committing a forward. -/
def WorkerToFabricEdmSender.edm_has_space_for_packet
    (ds : WorkerToFabricEdmSender) : Bool :=
  ds.edm_space_available

/-- Modelled from the spec: hand a packet to the downstream EDM instance,
decrementing the multicast hop-depth counters before re-transmission. -/
def forward_payload_to_downstream_edm (h : PacketHeader)
    (ds : WorkerToFabricEdmSender) : WorkerToFabricEdmSender :=
  { ds with forwarded := ds.forwarded ++
      [{ h with east_hops := h.east_hops - 1, west_hops := h.west_hops - 1,
                north_hops := h.north_hops - 1, south_hops := h.south_hops - 1 }] }

/-- Translation of `can_forward_packet_completely`: LOCAL_ONLY always fits,
REMOTE_ONLY and LOCAL_AND_REMOTE require downstream capacity, INVALID never
forwards. -/
def can_forward_packet_completely (node : NodeId) (h : PacketHeader)
    (downstream_edm_interface : WorkerToFabricEdmSender) : Bool :=
  let forward_status := get_packet_local_forward_type node h
  match forward_status with
  | .PACKET_FORWARD_INVALID => false
  | .PACKET_FORWARD_LOCAL_ONLY => true
  | .PACKET_FORWARD_REMOTE_ONLY => downstream_edm_interface.edm_has_space_for_packet
  | .PACKET_FORWARD_LOCAL_AND_REMOTE => downstream_edm_interface.edm_has_space_for_packet

/-- What `receiver_forward_packet` did: whether the packet payload was written
to the local chip, and whether it was enqueued to the downstream EDM. -/
structure ReceiverForwardEffects where
  wrote_local : Bool
  forwarded_downstream : Bool
deriving DecidableEq

/-- Translation of `receiver_forward_packet` (the caller must have checked
capacity): LOCAL_ONLY writes locally, REMOTE_ONLY forwards downstream,
LOCAL_AND_REMOTE does both, INVALID does nothing (a debug assertion fires). -/
def receiver_forward_packet (node : NodeId) (h : PacketHeader)
    (downstream_edm_interface : WorkerToFabricEdmSender) :
    WorkerToFabricEdmSender × ReceiverForwardEffects :=
  let forward_status := get_packet_local_forward_type node h
  match forward_status with
  | .PACKET_FORWARD_LOCAL_ONLY =>
      (downstream_edm_interface, ⟨true, false⟩)
  | .PACKET_FORWARD_REMOTE_ONLY =>
      (forward_payload_to_downstream_edm h downstream_edm_interface, ⟨false, true⟩)
  | .PACKET_FORWARD_LOCAL_AND_REMOTE =>
      (forward_payload_to_downstream_edm h downstream_edm_interface, ⟨true, true⟩)
  | .PACKET_FORWARD_INVALID =>
      (downstream_edm_interface, ⟨false, false⟩)

/-- Stream register id: senders update this stream (`to_receiver_pkts_sent_id`). -/
def to_receiver_pkts_sent_id : Nat := 0

/-- Stream register id: receiver updates this stream (`to_sender_0_pkts_acked_id`). -/
def to_sender_0_pkts_acked_id : Nat := 1

/-- Stream register id: receiver updates this stream (`to_sender_1_pkts_acked_id`). -/
def to_sender_1_pkts_acked_id : Nat := 2

/-- Stream register id: receiver updates this stream (`to_sender_0_pkts_completed_id`). -/
def to_sender_0_pkts_completed_id : Nat := 3

/-- Stream register id: receiver updates this stream (`to_sender_1_pkts_completed_id`). -/
def to_sender_1_pkts_completed_id : Nat := 4

/-- The array `to_sender_packets_acked_streams`, indexed by sender channel. -/
def to_sender_packets_acked_streams (i : Nat) : Nat :=
  if i = 0 then to_sender_0_pkts_acked_id else to_sender_1_pkts_acked_id

/-- The array `to_sender_packets_completed_streams`, indexed by sender channel. -/
def to_sender_packets_completed_streams (i : Nat) : Nat :=
  if i = 0 then to_sender_0_pkts_completed_id else to_sender_1_pkts_completed_id

/-- Modelled from the spec: the value of a sender channel's connection
semaphore, written by the worker: idle (0), an open connection, or a
teardown request. -/
inductive ConnectionSemaphoreVal where
  | idle
  | live
  | teardown_pending
deriving DecidableEq

/-- Modelled from the spec: `EdmChannelWorkerInterface`
(`fabric_erisc_datamover_channels.hpp`, not in src): the per-sender-channel
view of the producing worker.  `local_wrptr` is the next slot to send,
`local_rdptr` trails it as completions come back, `local_ackptr` trails as
acknowledgements come back; `worker_wrptr_counter` is the producer write
index the connected worker publishes, `worker_flow_control_value` is the
engine's last publication of its read pointer back to the worker, and
`edm_rdptr_record` is the read pointer written into the connection record at
teardown. -/
structure EdmChannelWorkerInterface (S : Nat) where
  local_wrptr : ChannelBufferPointer S
  local_rdptr : ChannelBufferPointer S
  local_ackptr : ChannelBufferPointer S
  worker_wrptr_counter : Nat
  connection_semaphore : ConnectionSemaphoreVal
  worker_flow_control_value : Nat
  edm_rdptr_record : Nat
deriving DecidableEq

namespace EdmChannelWorkerInterface

variable {S : Nat}

/-- Modelled from the spec: the channel has a packet the producer pushed but
the engine has not yet sent (`has_data_to_send(): local_wrptr !=
remote_sender_wrptr`). -/
def has_unsent_payload (w : EdmChannelWorkerInterface S) : Bool :=
  !(w.local_wrptr.counter == w.worker_wrptr_counter)

/-- Modelled from the spec: every packet sent over ethernet has been
completed by the receiver (the read pointer has caught the write pointer). -/
def all_eth_packets_completed (w : EdmChannelWorkerInterface S) : Bool :=
  w.local_rdptr.is_caught_up_to w.local_wrptr

/-- Modelled from the spec: the worker has set the connection semaphore to
the open value. -/
def connection_is_live (w : EdmChannelWorkerInterface S) : Bool :=
  match w.connection_semaphore with
  | .live => true
  | _ => false

/-- Modelled from the spec: the worker has requested a teardown of the
connection. -/
def has_worker_teardown_request (w : EdmChannelWorkerInterface S) : Bool :=
  match w.connection_semaphore with
  | .teardown_pending => true
  | _ => false

/-- Modelled from the spec: republish the channel read pointer to the
worker's flow-control counter so the worker can compute its free space. -/
def update_worker_copy_of_read_ptr (w : EdmChannelWorkerInterface S) :
    EdmChannelWorkerInterface S :=
  { w with worker_flow_control_value := w.local_ackptr.counter }

/-- Modelled from the spec: finalize a teardown: write the given read
pointer into the connection record and return the semaphore to idle. -/
def teardown_connection (w : EdmChannelWorkerInterface S) (rdptr : Nat) :
    EdmChannelWorkerInterface S :=
  { w with connection_semaphore := .idle, edm_rdptr_record := rdptr }

end EdmChannelWorkerInterface

/-- Translation of `OutboundReceiverChannelPointers`: the sender-side view of
the remote receiver channel. -/
structure OutboundReceiverChannelPointers (R : Nat) where
  wrptr : ChannelBufferPointer R
  ack_ptr : ChannelBufferPointer R
  completion_ptr : ChannelBufferPointer R
deriving DecidableEq

/-- Translation of `OutboundReceiverChannelPointers::has_space_for_packet`. -/
def OutboundReceiverChannelPointers.has_space_for_packet {R : Nat}
    (o : OutboundReceiverChannelPointers R) : Bool :=
  o.completion_ptr.distance_behind o.wrptr < R

/-- Translation of `ReceiverChannelPointers`: the receiver-side pointers. -/
structure ReceiverChannelPointers (R : Nat) where
  wr_sent_ptr : ChannelBufferPointer R
  wr_flush_ptr : ChannelBufferPointer R
  ack_ptr : ChannelBufferPointer R
  completion_ptr : ChannelBufferPointer R
deriving DecidableEq

/-- Modelled from the spec: the externally written process-wide termination
signal (`tt::fabric::TerminationSignal`, not in src). -/
inductive TerminationSignal where
  | KEEP_RUNNING
  | GRACEFULLY_TERMINATE
  | IMMEDIATELY_TERMINATE
deriving DecidableEq

/-- Translation of the receiver-side state enum `ReceiverState` (the loop
compares it before and after a receiver step to detect progress). -/
inductive ReceiverState where
  | RECEIVER_DONE
  | RECEIVER_SENDING_PAYLOAD
  | RECEIVER_WAITING_FOR_WRITE_FLUSH
  | RECEIVER_WAITING_FOR_ETH
deriving DecidableEq

/-- Pointwise update of a function-indexed table (models an array store). -/
def updf {A : Type} (f : Nat → A) (k : Nat) (v : A) : Nat → A :=
  fun n => if n = k then v else f n

@[simp] lemma updf_same {A : Type} (f : Nat → A) (k : Nat) (v : A) :
    updf f k v k = v := by
  simp [updf]

@[simp] lemma updf_other {A : Type} (f : Nat → A) (k n : Nat) (v : A)
    (h : n ≠ k) : updf f k v n = f n := by
  simp [updf, h]

/-- The complete state of one EDM engine instance that the translated
functions read and write: the two sender-channel worker interfaces and
buffers, the shared outbound view of the remote receiver channel, the
receiver-side pointers and buffer, the connection flags, the downstream EDM
adapter, the five local credit stream registers, the remote engine's
registers as targeted by `eth_write_remote_reg`, and the termination
signal. -/
structure EdmState (S R : Nat) where
  workers : Nat → EdmChannelWorkerInterface S
  channel_connection_established : Nat → Bool
  sender_slots : Nat → Nat → PacketHeader
  outbound : OutboundReceiverChannelPointers R
  remote_receiver_slots : Nat → PacketHeader
  receiver_pointers : ReceiverChannelPointers R
  receiver_slots : Nat → PacketHeader
  receiver_slot_sync : Nat → Bool
  remote_eth_sender_wrptrs : Nat → ChannelBufferPointer S
  downstream_edm_interface : WorkerToFabricEdmSender
  local_regs : Nat → Int
  remote_regs : Nat → Int
  termination_signal : TerminationSignal

/-- Observable actions of one `run_sender_channel_step` invocation, in the
order the code performs them. -/
inductive SenderEvent where
  | sent_packet (h : PacketHeader)
  | read_completions (n : Int)
  | drain_completions (n : Int)
  | read_acks (n : Int)
  | drain_acks (n : Int)
  | connection_established
  | connection_torn_down
deriving DecidableEq

/-- Translation of `send_next_data`: stamp the packet header's source-channel
id with the sending channel's index, copy the packet into the remote receiver
slot at the outbound write pointer, advance the local sender write pointer and
the outbound remote-receiver write pointer, and increment the remote
"packets sent" stream register by one. -/
def send_next_data {S R : Nat} (st : EdmState S R) (sender_channel_index : Nat) :
    EdmState S R × PacketHeader :=
  let w := st.workers sender_channel_index
  let local_sender_wrptr_buffer_index := w.local_wrptr.get_buffer_index
  let pkt_header := st.sender_slots sender_channel_index local_sender_wrptr_buffer_index
  let stamped := { pkt_header with src_ch_id := sender_channel_index }
  let remote_receiver_index := st.outbound.wrptr.get_buffer_index
  let st' : EdmState S R :=
    { st with
      sender_slots := updf st.sender_slots sender_channel_index
        (updf (st.sender_slots sender_channel_index) local_sender_wrptr_buffer_index stamped),
      remote_receiver_slots := updf st.remote_receiver_slots remote_receiver_index stamped,
      workers := updf st.workers sender_channel_index
        { w with local_wrptr := w.local_wrptr.increment },
      remote_regs := updf st.remote_regs to_receiver_pkts_sent_id
        (st.remote_regs to_receiver_pkts_sent_id + 1),
      outbound := { st.outbound with wrptr := st.outbound.wrptr.increment } }
  (st', stamped)

/-- The guard of the send phase of `run_sender_channel_step`: the remote
receiver has a free slot, the ethernet transmit queue is idle, the channel
has an unsent payload and the producer is not backpressured. -/
def sender_send_condition {S R : Nat} (st : EdmState S R)
    (sender_channel_index : Nat) (eth_txq_busy : Bool) : Bool :=
  let w := st.workers sender_channel_index
  st.outbound.has_space_for_packet && !eth_txq_busy && w.has_unsent_payload &&
    (w.local_rdptr.distance_behind w.local_wrptr < S)

/-- Send phase of `run_sender_channel_step` (the first `if` block). -/
def sender_phase_send {S R : Nat} (st : EdmState S R)
    (sender_channel_index : Nat) (eth_txq_busy : Bool) :
    EdmState S R × List SenderEvent :=
  let receiver_has_space_for_packet := st.outbound.has_space_for_packet
  if receiver_has_space_for_packet && !eth_txq_busy then
    let w := st.workers sender_channel_index
    if w.has_unsent_payload then
      let sender_backpressured_from_sender_side :=
        !(w.local_rdptr.distance_behind w.local_wrptr < S)
      if !sender_backpressured_from_sender_side then
        let out := send_next_data st sender_channel_index
        (out.1, [SenderEvent.sent_packet out.2])
      else (st, [])
    else (st, [])
  else (st, [])

/-- Completion-drain phase of `run_sender_channel_step`: read the
"packets completed" stream register; if positive, advance the local read
pointer and the outbound completion pointer by the observed count and
decrement the register by that count. -/
def sender_phase_completions {S R : Nat} (st : EdmState S R)
    (sender_channel_index : Nat) : EdmState S R × Int :=
  let stream := to_sender_packets_completed_streams sender_channel_index
  let completions_since_last_check := st.local_regs stream
  if completions_since_last_check > 0 then
    let w := st.workers sender_channel_index
    ({ st with
        outbound := { st.outbound with completion_ptr :=
          st.outbound.completion_ptr.increment_n completions_since_last_check.toNat },
        workers := updf st.workers sender_channel_index
          { w with local_rdptr := w.local_rdptr.increment_n completions_since_last_check.toNat },
        local_regs := updf st.local_regs stream
          (st.local_regs stream - completions_since_last_check) },
      completions_since_last_check)
  else (st, completions_since_last_check)

/-- Ack-drain phase of `run_sender_channel_step`: read the "packets acked"
stream register; if positive, advance the local ack pointer by the observed
count, republish the read pointer to the worker when a connection is
established, and decrement the register by that count. -/
def sender_phase_acks {S R : Nat} (st : EdmState S R)
    (sender_channel_index : Nat) : EdmState S R × Int :=
  let stream := to_sender_packets_acked_streams sender_channel_index
  let acks_since_last_check := st.local_regs stream
  if acks_since_last_check > 0 then
    let w := st.workers sender_channel_index
    let w1 := { w with local_ackptr := w.local_ackptr.increment_n acks_since_last_check.toNat }
    let w2 := if st.channel_connection_established sender_channel_index then
        w1.update_worker_copy_of_read_ptr
      else w1
    ({ st with
        workers := updf st.workers sender_channel_index w2,
        local_regs := updf st.local_regs stream
          (st.local_regs stream - acks_since_last_check) },
      acks_since_last_check)
  else (st, acks_since_last_check)

/-- Connection-management phase of `run_sender_channel_step`: establish a
connection when a connect or pending-teardown request is observed while
disconnected; finalize a teardown when connected and a teardown request is
observed. -/
def sender_phase_connection {S R : Nat} (st : EdmState S R)
    (sender_channel_index : Nat) : EdmState S R × List SenderEvent :=
  let w := st.workers sender_channel_index
  if !(st.channel_connection_established sender_channel_index) then
    let connect_requested := w.connection_is_live || w.has_worker_teardown_request
    if connect_requested then
      ({ st with
          channel_connection_established :=
            updf st.channel_connection_established sender_channel_index true,
          workers := updf st.workers sender_channel_index
            w.update_worker_copy_of_read_ptr },
        [SenderEvent.connection_established])
    else (st, [])
  else
    if w.has_worker_teardown_request then
      ({ st with
          channel_connection_established :=
            updf st.channel_connection_established sender_channel_index false,
          workers := updf st.workers sender_channel_index
            (w.teardown_connection w.local_rdptr.get_ptr) },
        [SenderEvent.connection_torn_down])
    else (st, [])

/-- Translation of `run_sender_channel_step`: send phase, completion drain,
ack drain (in that order), then connection management.  Returns the new
state, the `did_something` flag the loop uses for idle detection, and the
trace of observable actions. -/
def run_sender_channel_step {S R : Nat} (st : EdmState S R)
    (sender_channel_index : Nat) (eth_txq_busy : Bool) :
    EdmState S R × Bool × List SenderEvent :=
  let send := sender_phase_send st sender_channel_index eth_txq_busy
  let comp := sender_phase_completions send.1 sender_channel_index
  let ack := sender_phase_acks comp.1 sender_channel_index
  let conn := sender_phase_connection ack.1 sender_channel_index
  let did_something := !send.2.isEmpty || (comp.2 + ack.2 > 0) || !conn.2.isEmpty
  let trace := send.2 ++
    ([SenderEvent.read_completions comp.2] ++
      (if comp.2 > 0 then [SenderEvent.drain_completions comp.2] else [])) ++
    ([SenderEvent.read_acks ack.2] ++
      (if ack.2 > 0 then [SenderEvent.drain_acks ack.2] else [])) ++
    conn.2
  (conn.1, did_something, trace)

/-- Environment inputs of one receiver channel step: the two ethernet
transmit-queue polls (`eth_txq_is_busy` is read once for the ack phase and
once for the completion phase) and the write-flush poll
(`ncrisc_noc_nonposted_writes_sent`). -/
structure ReceiverEnv where
  eth_txq_busy_ack : Bool
  eth_txq_busy_completion : Bool
  writes_flushed : Bool
deriving DecidableEq

/-- Translation of `receiver_send_received_ack`: read the source-channel id
of the packet at the given receiver slot and increment the remote
"packets acked" stream register of that sender channel. -/
def receiver_send_received_ack {S R : Nat} (st : EdmState S R)
    (receiver_channel_ptr : ChannelBufferPointer R) : EdmState S R :=
  let receiver_buffer_index := receiver_channel_ptr.get_buffer_index
  let src_id := (st.receiver_slots receiver_buffer_index).src_ch_id
  let stream := to_sender_packets_acked_streams src_id
  { st with remote_regs := updf st.remote_regs stream (st.remote_regs stream + 1) }

/-- Ack phase of `run_receiver_channel_step`: if the "packets sent" register
is positive and the transmit queue is idle, decrement the register by one,
ack the originating sender channel and advance the receiver ack pointer. -/
def receiver_phase_ack {S R : Nat} (st : EdmState S R) (eth_txq_busy : Bool) :
    EdmState S R :=
  let pkts_received_since_last_check := st.local_regs to_receiver_pkts_sent_id
  let pkts_received := pkts_received_since_last_check > 0
  let can_send_over_eth := !eth_txq_busy
  if pkts_received && can_send_over_eth then
    let decremented := updf st.local_regs to_receiver_pkts_sent_id
      (st.local_regs to_receiver_pkts_sent_id - 1)
    let st1 := { st with local_regs := decremented }
    let st2 := receiver_send_received_ack st1 st.receiver_pointers.ack_ptr
    { st2 with receiver_pointers :=
        { st2.receiver_pointers with ack_ptr := st2.receiver_pointers.ack_ptr.increment } }
  else st

/-- Forward phase of `run_receiver_channel_step`: if an acked-but-unwritten
packet exists and the complete forward can be accepted, execute the local
write and/or downstream enqueue and advance the write-sent pointer. -/
def receiver_phase_send (node : NodeId) {S R : Nat} (st : EdmState S R) :
    EdmState S R × ReceiverForwardEffects :=
  let wr_sent_ptr := st.receiver_pointers.wr_sent_ptr
  let unwritten_packets := !(wr_sent_ptr.is_caught_up_to st.receiver_pointers.ack_ptr)
  if unwritten_packets then
    let receiver_buffer_index := wr_sent_ptr.get_buffer_index
    let packet_header := st.receiver_slots receiver_buffer_index
    let can_send_to_all_local_chip_receivers :=
      can_forward_packet_completely node packet_header st.downstream_edm_interface
    if can_send_to_all_local_chip_receivers then
      let out := receiver_forward_packet node packet_header st.downstream_edm_interface
      ({ st with
          downstream_edm_interface := out.1,
          receiver_pointers := { st.receiver_pointers with wr_sent_ptr := wr_sent_ptr.increment } },
        out.2)
    else (st, ⟨false, false⟩)
  else (st, ⟨false, false⟩)

/-- Flush phase of `run_receiver_channel_step`: once the local writes are
confirmed flushed, clear the slot's channel-sync marker and advance the
write-flush pointer. -/
def receiver_phase_flush {S R : Nat} (st : EdmState S R) (writes_flushed : Bool) :
    EdmState S R :=
  let wr_flush_ptr := st.receiver_pointers.wr_flush_ptr
  let unflushed_writes := !(wr_flush_ptr.is_caught_up_to st.receiver_pointers.wr_sent_ptr)
  if unflushed_writes && writes_flushed then
    let receiver_buffer_index := wr_flush_ptr.get_buffer_index
    { st with
        receiver_slot_sync := updf st.receiver_slot_sync receiver_buffer_index false,
        receiver_pointers := { st.receiver_pointers with wr_flush_ptr := wr_flush_ptr.increment } }
  else st

/-- Translation of `receiver_send_completion_ack`: increment the remote
"packets completed" stream register of the packet's source channel, advance
the receiver completion pointer and the mirrored remote sender pointer. -/
def receiver_send_completion_ack {S R : Nat} (st : EdmState S R) : EdmState S R :=
  let receiver_buffer_index := st.receiver_pointers.completion_ptr.get_buffer_index
  let src_id := (st.receiver_slots receiver_buffer_index).src_ch_id
  let stream := to_sender_packets_completed_streams src_id
  { st with
      remote_regs := updf st.remote_regs stream (st.remote_regs stream + 1),
      receiver_pointers := { st.receiver_pointers with completion_ptr :=
        st.receiver_pointers.completion_ptr.increment },
      remote_eth_sender_wrptrs := updf st.remote_eth_sender_wrptrs src_id
        ((st.remote_eth_sender_wrptrs src_id).increment) }

/-- Completion phase of `run_receiver_channel_step`: when the completion
pointer trails the write-flush pointer and the transmit queue is idle, send
a completion acknowledgement. -/
def receiver_phase_completion {S R : Nat} (st : EdmState S R) (eth_txq_busy : Bool) :
    EdmState S R :=
  let completion_ptr := st.receiver_pointers.completion_ptr
  let unsent_completions := !(completion_ptr.is_caught_up_to st.receiver_pointers.wr_flush_ptr)
  if unsent_completions then
    let can_send_without_blocking := !eth_txq_busy
    if can_send_without_blocking then receiver_send_completion_ack st else st
  else st

/-- Translation of `run_receiver_channel_step`: the four phases in program
order.  The `receiver_state_out` argument is returned untouched, mirroring
the code, which never writes through that pointer. -/
def run_receiver_channel_step (node : NodeId) {S R : Nat} (st : EdmState S R)
    (receiver_state_out : ReceiverState) (env : ReceiverEnv) :
    EdmState S R × ReceiverState × ReceiverForwardEffects :=
  let st1 := receiver_phase_ack st env.eth_txq_busy_ack
  let send := receiver_phase_send node st1
  let st3 := receiver_phase_flush send.1 env.writes_flushed
  let st4 := receiver_phase_completion st3 env.eth_txq_busy_completion
  (st4, receiver_state_out, send.2)

/-- Translation of `got_immediate_termination_signal`. -/
def got_immediate_termination_signal (sig : TerminationSignal) : Bool :=
  match sig with
  | .IMMEDIATELY_TERMINATE => true
  | _ => false

/-- Translation of `got_graceful_termination_signal`. -/
def got_graceful_termination_signal (sig : TerminationSignal) : Bool :=
  match sig with
  | .GRACEFULLY_TERMINATE => true
  | _ => false

/-- Translation of `got_termination_signal`. -/
def got_termination_signal (sig : TerminationSignal) : Bool :=
  got_immediate_termination_signal sig || got_graceful_termination_signal sig

/-- Translation of `all_channels_drained`: both sender channels have all
ethernet packets completed and no unsent worker payload, the receiver
completion pointer has caught its ack pointer, and the five credit stream
registers read zero. -/
def all_channels_drained {S R : Nat} (st : EdmState S R) : Bool :=
  (st.workers 0).all_eth_packets_completed &&
  (st.workers 1).all_eth_packets_completed &&
  !(st.workers 0).has_unsent_payload &&
  !(st.workers 1).has_unsent_payload &&
  st.receiver_pointers.completion_ptr.is_caught_up_to st.receiver_pointers.ack_ptr &&
  (st.local_regs to_receiver_pkts_sent_id == 0) &&
  (st.local_regs to_sender_0_pkts_acked_id == 0) &&
  (st.local_regs to_sender_1_pkts_acked_id == 0) &&
  (st.local_regs to_sender_0_pkts_completed_id == 0) &&
  (st.local_regs to_sender_1_pkts_completed_id == 0)

/-- External interference applied at the top of a loop iteration: a possible
termination-signal write by the controller, credit increments arriving from
the remote engine into the local stream registers, packet payloads landing in
receiver slots, worker writes to the producer index and connection
semaphores, the downstream capacity, and the polled hardware flags for this
iteration. -/
structure IterEnv where
  signal_write : Option TerminationSignal
  reg_deltas : Nat → Int
  recv_slot_writes : List (Nat × PacketHeader)
  worker0_wrptr_write : Option Nat
  worker1_wrptr_write : Option Nat
  worker0_semaphore_write : Option ConnectionSemaphoreVal
  worker1_semaphore_write : Option ConnectionSemaphoreVal
  downstream_space : Bool
  sender_eth_txq_busy : Bool
  receiver_env : ReceiverEnv

/-- Apply one iteration's external interference to the engine state. -/
def applyEnv {S R : Nat} (st : EdmState S R) (e : IterEnv) : EdmState S R :=
  let w0 := st.workers 0
  let w1 := st.workers 1
  let w0a := { w0 with
    worker_wrptr_counter := e.worker0_wrptr_write.getD w0.worker_wrptr_counter,
    connection_semaphore := e.worker0_semaphore_write.getD w0.connection_semaphore }
  let w1a := { w1 with
    worker_wrptr_counter := e.worker1_wrptr_write.getD w1.worker_wrptr_counter,
    connection_semaphore := e.worker1_semaphore_write.getD w1.connection_semaphore }
  { st with
    termination_signal := e.signal_write.getD st.termination_signal,
    local_regs := fun n => st.local_regs n + e.reg_deltas n,
    receiver_slots := e.recv_slot_writes.foldl (fun f p => updf f p.1 p.2) st.receiver_slots,
    workers := updf (updf st.workers 0 w0a) 1 w1a,
    downstream_edm_interface :=
      { st.downstream_edm_interface with edm_space_available := e.downstream_space } }

/-- Loop-local bookkeeping of `run_fabric_edm_main_loop`: the engine state,
the round-robin sender channel index, the idle counter and the receiver
state variable the loop compares for progress detection. -/
structure LoopState (S R : Nat) where
  edm : EdmState S R
  sender_channel_index : Nat
  did_nothing_count : Nat
  receiver_state : ReceiverState

/-- Result of one iteration of the main loop body: return because of an
immediate termination signal, return because a graceful termination was
requested and all channels are drained, or continue looping (the flag
records whether `run_routing` was invoked). -/
inductive IterResult (S R : Nat) where
  | immediateExit (ls : LoopState S R)
  | gracefulExit (ls : LoopState S R)
  | continueLoop (ls : LoopState S R) (ran_routing : Bool)

/-- Translation of one iteration of the `while` loop in
`run_fabric_edm_main_loop`: poll the termination signal, on graceful
termination return only when `all_channels_drained`, otherwise run one
sender channel step (alternating channels), run the receiver channel step,
and update the idle counter, calling `run_routing` after the idle counter
exceeds `SWITCH_INTERVAL`. -/
def loop_iteration (SWITCH_INTERVAL : Nat) (node : NodeId) {S R : Nat}
    (ls : LoopState S R) (e : IterEnv) : IterResult S R :=
  let st := applyEnv ls.edm e
  if got_immediate_termination_signal st.termination_signal then
    .immediateExit { ls with edm := st }
  else
    let got_graceful_termination := got_graceful_termination_signal st.termination_signal
    if got_graceful_termination && all_channels_drained st then
      .gracefulExit { ls with edm := st }
    else
      let old_recv_state := ls.receiver_state
      let sender := run_sender_channel_step st ls.sender_channel_index e.sender_eth_txq_busy
      let did_something_sender := sender.2.1
      let next_index := 1 - ls.sender_channel_index
      let recv := run_receiver_channel_step node sender.1 ls.receiver_state e.receiver_env
      let did_something := did_something_sender || !(old_recv_state == recv.2.1)
      if did_something then
        .continueLoop
          { edm := recv.1, sender_channel_index := next_index,
            did_nothing_count := 0, receiver_state := recv.2.1 } false
      else
        if ls.did_nothing_count > SWITCH_INTERVAL then
          .continueLoop
            { edm := recv.1, sender_channel_index := next_index,
              did_nothing_count := 0, receiver_state := recv.2.1 } true
        else
          .continueLoop
            { edm := recv.1, sender_channel_index := next_index,
              did_nothing_count := ls.did_nothing_count + 1, receiver_state := recv.2.1 } false

/-- The loop state reached after one iteration, whether or not the iteration
returned (used to phrase reachability over iterations). -/
def nextLoopState (SWITCH_INTERVAL : Nat) (node : NodeId) {S R : Nat}
    (ls : LoopState S R) (e : IterEnv) : LoopState S R :=
  match loop_iteration SWITCH_INTERVAL node ls e with
  | .immediateExit s => s
  | .gracefulExit s => s
  | .continueLoop s _ => s

/-- The loop state before iteration `k`, given the per-iteration environment
stream. -/
def iterState (SWITCH_INTERVAL : Nat) (node : NodeId) {S R : Nat} :
    Nat → LoopState S R → (Nat → IterEnv) → LoopState S R
  | 0, ls, _ => ls
  | k + 1, ls, env =>
      iterState SWITCH_INTERVAL node k
        (nextLoopState SWITCH_INTERVAL node ls (env 0)) (fun n => env (n + 1))

/-- Outcome of running the main loop for a bounded number of iterations. -/
inductive LoopResult (S R : Nat) where
  | immediateExit (ls : LoopState S R)
  | gracefulExit (ls : LoopState S R)
  | outOfFuel (ls : LoopState S R)

/-- Run the main loop for at most `fuel` iterations. -/
def run_loop_from (SWITCH_INTERVAL : Nat) (node : NodeId) {S R : Nat} :
    Nat → LoopState S R → (Nat → IterEnv) → LoopResult S R
  | 0, ls, _ => .outOfFuel ls
  | fuel + 1, ls, env =>
      match loop_iteration SWITCH_INTERVAL node ls (env 0) with
      | .immediateExit s => .immediateExit s
      | .gracefulExit s => .gracefulExit s
      | .continueLoop s _ =>
          run_loop_from SWITCH_INTERVAL node fuel s (fun n => env (n + 1))

/-- Translation of the entry of `run_fabric_edm_main_loop` (before the
`while` loop): the termination signal is unconditionally overwritten with
KEEP_RUNNING; the loop-local pointers, connection flags, idle counter,
sender channel index and receiver state variable are initialized. -/
def main_loop_entry {S R : Nat} (st : EdmState S R) : LoopState S R :=
  { edm := { st with
      termination_signal := .KEEP_RUNNING,
      outbound := ⟨⟨0⟩, ⟨0⟩, ⟨0⟩⟩,
      receiver_pointers := ⟨⟨0⟩, ⟨0⟩, ⟨0⟩, ⟨0⟩⟩,
      remote_eth_sender_wrptrs := fun _ => ⟨0⟩,
      channel_connection_established := fun _ => false },
    sender_channel_index := 0,
    did_nothing_count := 0,
    receiver_state := .RECEIVER_WAITING_FOR_ETH }

/-- Translation of `run_fabric_edm_main_loop`, bounded by `fuel` iterations. -/
def run_fabric_edm_main_loop (SWITCH_INTERVAL : Nat) (node : NodeId) {S R : Nat}
    (fuel : Nat) (st : EdmState S R) (env : Nat → IterEnv) : LoopResult S R :=
  run_loop_from SWITCH_INTERVAL node fuel (main_loop_entry st) env

/-- Well-formedness of the four receiver-side pointers (counters reduced
modulo `PTR_MOD`). -/
def ReceiverChannelPointers.Wf {R : Nat} (p : ReceiverChannelPointers R) : Prop :=
  p.wr_sent_ptr.Wf ∧ p.wr_flush_ptr.Wf ∧ p.ack_ptr.Wf ∧ p.completion_ptr.Wf

/-- Total span of the receiver pointer chain: how far the completion pointer
trails the ack pointer, decomposed along completion ≤ flush ≤ sent ≤ ack. -/
def recvSpan {R : Nat} (p : ReceiverChannelPointers R) : Nat :=
  p.completion_ptr.distance_behind p.wr_flush_ptr +
  p.wr_flush_ptr.distance_behind p.wr_sent_ptr +
  p.wr_sent_ptr.distance_behind p.ack_ptr

/-- The receiver ordering invariant: each pointer trails or equals the next
in the chain completion ≤ flush ≤ sent ≤ ack, with the whole chain spanning
at most the buffer count. -/
def RecvOrdered (R : Nat) (p : ReceiverChannelPointers R) : Prop :=
  p.Wf ∧ recvSpan p ≤ R

lemma receiver_phase_ack_ptrs {S R : Nat} (st : EdmState S R) (b : Bool) :
    (receiver_phase_ack st b).receiver_pointers =
      (if (st.local_regs to_receiver_pkts_sent_id > 0) && !b then
        { st.receiver_pointers with
            ack_ptr := st.receiver_pointers.ack_ptr.increment }
      else st.receiver_pointers) := by
  unfold receiver_phase_ack receiver_send_received_ack
  by_cases h : (st.local_regs to_receiver_pkts_sent_id > 0 && !b) <;> simp [h]

lemma receiver_phase_ack_frame {S R : Nat} (st : EdmState S R) (b : Bool) :
    (receiver_phase_ack st b).receiver_slots = st.receiver_slots ∧
    (receiver_phase_ack st b).downstream_edm_interface = st.downstream_edm_interface := by
  unfold receiver_phase_ack receiver_send_received_ack
  by_cases h : ((st.local_regs to_receiver_pkts_sent_id > 0) && !b) <;> simp [h]

lemma receiver_phase_send_ptrs (node : NodeId) {S R : Nat} (st : EdmState S R) :
    (receiver_phase_send node st).1.receiver_pointers =
      (if !(st.receiver_pointers.wr_sent_ptr.is_caught_up_to st.receiver_pointers.ack_ptr)
          && can_forward_packet_completely node
               (st.receiver_slots st.receiver_pointers.wr_sent_ptr.get_buffer_index)
               st.downstream_edm_interface then
        { st.receiver_pointers with
            wr_sent_ptr := st.receiver_pointers.wr_sent_ptr.increment }
      else st.receiver_pointers) := by
  unfold receiver_phase_send
  by_cases h1 : st.receiver_pointers.wr_sent_ptr.is_caught_up_to st.receiver_pointers.ack_ptr <;>
    by_cases h2 : can_forward_packet_completely node
        (st.receiver_slots st.receiver_pointers.wr_sent_ptr.get_buffer_index)
        st.downstream_edm_interface <;>
    simp [h1, h2]

lemma receiver_phase_send_effects (node : NodeId) {S R : Nat} (st : EdmState S R) :
    (receiver_phase_send node st).2 =
      (if !(st.receiver_pointers.wr_sent_ptr.is_caught_up_to st.receiver_pointers.ack_ptr)
          && can_forward_packet_completely node
               (st.receiver_slots st.receiver_pointers.wr_sent_ptr.get_buffer_index)
               st.downstream_edm_interface then
        (receiver_forward_packet node
          (st.receiver_slots st.receiver_pointers.wr_sent_ptr.get_buffer_index)
          st.downstream_edm_interface).2
      else ⟨false, false⟩) := by
  unfold receiver_phase_send
  by_cases h1 : st.receiver_pointers.wr_sent_ptr.is_caught_up_to st.receiver_pointers.ack_ptr <;>
    by_cases h2 : can_forward_packet_completely node
        (st.receiver_slots st.receiver_pointers.wr_sent_ptr.get_buffer_index)
        st.downstream_edm_interface <;>
    simp [h1, h2]

lemma receiver_phase_flush_ptrs {S R : Nat} (st : EdmState S R) (fl : Bool) :
    (receiver_phase_flush st fl).receiver_pointers =
      (if !(st.receiver_pointers.wr_flush_ptr.is_caught_up_to
              st.receiver_pointers.wr_sent_ptr) && fl then
        { st.receiver_pointers with
            wr_flush_ptr := st.receiver_pointers.wr_flush_ptr.increment }
      else st.receiver_pointers) := by
  unfold receiver_phase_flush
  by_cases h : (!(st.receiver_pointers.wr_flush_ptr.is_caught_up_to
      st.receiver_pointers.wr_sent_ptr) && fl) <;> simp [h]

lemma receiver_phase_completion_ptrs {S R : Nat} (st : EdmState S R) (b : Bool) :
    (receiver_phase_completion st b).receiver_pointers =
      (if !(st.receiver_pointers.completion_ptr.is_caught_up_to
              st.receiver_pointers.wr_flush_ptr) && !b then
        { st.receiver_pointers with
            completion_ptr := st.receiver_pointers.completion_ptr.increment }
      else st.receiver_pointers) := by
  unfold receiver_phase_completion receiver_send_completion_ack
  by_cases h1 : st.receiver_pointers.completion_ptr.is_caught_up_to
      st.receiver_pointers.wr_flush_ptr <;>
    by_cases h2 : b <;> simp [h1, h2]

lemma receiver_phase_ack_ordered {S R : Nat} (st : EdmState S R) (b : Bool)
    (hR : R + 1 < PTR_MOD) (hord : RecvOrdered R st.receiver_pointers)
    (hassert : 0 < st.local_regs to_receiver_pkts_sent_id →
      recvSpan st.receiver_pointers < R) :
    RecvOrdered R (receiver_phase_ack st b).receiver_pointers := by
  obtain ⟨⟨hw1, hw2, hw3, hw4⟩, hspan⟩ := hord
  rw [receiver_phase_ack_ptrs]
  split
  case isTrue h =>
    have hregs : 0 < st.local_regs to_receiver_pkts_sent_id := by
      have := (Bool.and_eq_true _ _).mp h
      simpa using this.1
    have hlt := hassert hregs
    have hd : st.receiver_pointers.wr_sent_ptr.distance_behind
        st.receiver_pointers.ack_ptr + 1 < PTR_MOD := by
      unfold recvSpan at hlt
      omega
    refine ⟨⟨hw1, hw2, ChannelBufferPointer.wf_increment _, hw4⟩, ?_⟩
    unfold recvSpan at *
    dsimp only
    rw [ChannelBufferPointer.distance_behind_increment_right hw1 hw3 hd]
    omega
  case isFalse h => exact ⟨⟨hw1, hw2, hw3, hw4⟩, hspan⟩

lemma receiver_phase_send_ordered (node : NodeId) {S R : Nat} (st : EdmState S R)
    (hR : R + 1 < PTR_MOD) (hord : RecvOrdered R st.receiver_pointers) :
    RecvOrdered R (receiver_phase_send node st).1.receiver_pointers := by
  obtain ⟨⟨hw1, hw2, hw3, hw4⟩, hspan⟩ := hord
  rw [receiver_phase_send_ptrs]
  split
  case isTrue h =>
    have hne : st.receiver_pointers.wr_sent_ptr.counter ≠
        st.receiver_pointers.ack_ptr.counter := by
      have := (Bool.and_eq_true _ _).mp h
      simpa [ChannelBufferPointer.is_caught_up_to] using this.1
    have hdpos : 1 ≤ st.receiver_pointers.wr_sent_ptr.distance_behind
        st.receiver_pointers.ack_ptr := by
      rcases Nat.eq_zero_or_pos (st.receiver_pointers.wr_sent_ptr.distance_behind
        st.receiver_pointers.ack_ptr) with h0 | h0
      · exact absurd ((ChannelBufferPointer.distance_behind_eq_zero_iff hw1 hw3).mp h0) hne
      · exact h0
    have hd2 : st.receiver_pointers.wr_flush_ptr.distance_behind
        st.receiver_pointers.wr_sent_ptr + 1 < PTR_MOD := by
      unfold recvSpan at hspan
      omega
    refine ⟨⟨ChannelBufferPointer.wf_increment _, hw2, hw3, hw4⟩, ?_⟩
    unfold recvSpan at *
    dsimp only
    rw [ChannelBufferPointer.distance_behind_increment_right hw2 hw1 hd2,
      ChannelBufferPointer.distance_behind_increment_left hw1 hw3 hdpos]
    omega
  case isFalse h => exact ⟨⟨hw1, hw2, hw3, hw4⟩, hspan⟩

lemma receiver_phase_flush_ordered {S R : Nat} (st : EdmState S R) (fl : Bool)
    (hR : R + 1 < PTR_MOD) (hord : RecvOrdered R st.receiver_pointers) :
    RecvOrdered R (receiver_phase_flush st fl).receiver_pointers := by
  obtain ⟨⟨hw1, hw2, hw3, hw4⟩, hspan⟩ := hord
  rw [receiver_phase_flush_ptrs]
  split
  case isTrue h =>
    have hne : st.receiver_pointers.wr_flush_ptr.counter ≠
        st.receiver_pointers.wr_sent_ptr.counter := by
      have := (Bool.and_eq_true _ _).mp h
      simpa [ChannelBufferPointer.is_caught_up_to] using this.1
    have hdpos : 1 ≤ st.receiver_pointers.wr_flush_ptr.distance_behind
        st.receiver_pointers.wr_sent_ptr := by
      rcases Nat.eq_zero_or_pos (st.receiver_pointers.wr_flush_ptr.distance_behind
        st.receiver_pointers.wr_sent_ptr) with h0 | h0
      · exact absurd ((ChannelBufferPointer.distance_behind_eq_zero_iff hw2 hw1).mp h0) hne
      · exact h0
    have hd2 : st.receiver_pointers.completion_ptr.distance_behind
        st.receiver_pointers.wr_flush_ptr + 1 < PTR_MOD := by
      unfold recvSpan at hspan
      omega
    refine ⟨⟨hw1, ChannelBufferPointer.wf_increment _, hw3, hw4⟩, ?_⟩
    unfold recvSpan at *
    dsimp only
    rw [ChannelBufferPointer.distance_behind_increment_right hw4 hw2 hd2,
      ChannelBufferPointer.distance_behind_increment_left hw2 hw1 hdpos]
    omega
  case isFalse h => exact ⟨⟨hw1, hw2, hw3, hw4⟩, hspan⟩

lemma receiver_phase_completion_ordered {S R : Nat} (st : EdmState S R) (b : Bool)
    (hR : R + 1 < PTR_MOD) (hord : RecvOrdered R st.receiver_pointers) :
    RecvOrdered R (receiver_phase_completion st b).receiver_pointers := by
  obtain ⟨⟨hw1, hw2, hw3, hw4⟩, hspan⟩ := hord
  rw [receiver_phase_completion_ptrs]
  split
  case isTrue h =>
    have hne : st.receiver_pointers.completion_ptr.counter ≠
        st.receiver_pointers.wr_flush_ptr.counter := by
      have := (Bool.and_eq_true _ _).mp h
      simpa [ChannelBufferPointer.is_caught_up_to] using this.1
    have hdpos : 1 ≤ st.receiver_pointers.completion_ptr.distance_behind
        st.receiver_pointers.wr_flush_ptr := by
      rcases Nat.eq_zero_or_pos (st.receiver_pointers.completion_ptr.distance_behind
        st.receiver_pointers.wr_flush_ptr) with h0 | h0
      · exact absurd ((ChannelBufferPointer.distance_behind_eq_zero_iff hw4 hw2).mp h0) hne
      · exact h0
    refine ⟨⟨hw1, hw2, hw3, ChannelBufferPointer.wf_increment _⟩, ?_⟩
    unfold recvSpan at *
    dsimp only
    rw [ChannelBufferPointer.distance_behind_increment_left hw4 hw2 hdpos]
    omega
  case isFalse h => exact ⟨⟨hw1, hw2, hw3, hw4⟩, hspan⟩

lemma run_receiver_channel_step_ordered (node : NodeId) {S R : Nat}
    (st : EdmState S R) (rs : ReceiverState) (env : ReceiverEnv)
    (hR : R + 1 < PTR_MOD) (hord : RecvOrdered R st.receiver_pointers)
    (hassert : 0 < st.local_regs to_receiver_pkts_sent_id →
      recvSpan st.receiver_pointers < R) :
    RecvOrdered R (run_receiver_channel_step node st rs env).1.receiver_pointers := by
  unfold run_receiver_channel_step
  exact receiver_phase_completion_ordered _ _ hR
    (receiver_phase_flush_ordered _ _ hR
      (receiver_phase_send_ordered node _ hR
        (receiver_phase_ack_ordered _ _ hR hord hassert)))

lemma sender_phase_send_outbound {S R : Nat} (st : EdmState S R) (i : Nat) (b : Bool) :
    (sender_phase_send st i b).1.outbound =
      (if sender_send_condition st i b then
        { st.outbound with wrptr := st.outbound.wrptr.increment }
      else st.outbound) := by
  unfold sender_phase_send sender_send_condition send_next_data
  by_cases h1 : (st.outbound.has_space_for_packet && !b) <;>
    by_cases h2 : (st.workers i).has_unsent_payload <;>
    by_cases h3 : ((st.workers i).local_rdptr.distance_behind (st.workers i).local_wrptr < S) <;>
    simp [h1, h2, h3]

lemma sender_phase_send_events {S R : Nat} (st : EdmState S R) (i : Nat) (b : Bool) :
    (sender_phase_send st i b).2 =
      (if sender_send_condition st i b then
        [SenderEvent.sent_packet (send_next_data st i).2]
      else []) := by
  unfold sender_phase_send sender_send_condition
  by_cases h1 : (st.outbound.has_space_for_packet && !b) <;>
    by_cases h2 : (st.workers i).has_unsent_payload <;>
    by_cases h3 : ((st.workers i).local_rdptr.distance_behind (st.workers i).local_wrptr < S) <;>
    simp [h1, h2, h3]

lemma sender_phase_send_wrptr {S R : Nat} (st : EdmState S R) (i : Nat) (b : Bool) :
    ((sender_phase_send st i b).1.workers i).local_wrptr =
      (if sender_send_condition st i b then
        (st.workers i).local_wrptr.increment
      else (st.workers i).local_wrptr) := by
  unfold sender_phase_send sender_send_condition send_next_data
  by_cases h1 : (st.outbound.has_space_for_packet && !b) <;>
    by_cases h2 : (st.workers i).has_unsent_payload <;>
    by_cases h3 : ((st.workers i).local_rdptr.distance_behind (st.workers i).local_wrptr < S) <;>
    simp [h1, h2, h3, updf]

lemma sender_phase_send_remote_sent_reg {S R : Nat} (st : EdmState S R) (i : Nat) (b : Bool) :
    (sender_phase_send st i b).1.remote_regs to_receiver_pkts_sent_id =
      (if sender_send_condition st i b then
        st.remote_regs to_receiver_pkts_sent_id + 1
      else st.remote_regs to_receiver_pkts_sent_id) := by
  unfold sender_phase_send sender_send_condition send_next_data
  by_cases h1 : (st.outbound.has_space_for_packet && !b) <;>
    by_cases h2 : (st.workers i).has_unsent_payload <;>
    by_cases h3 : ((st.workers i).local_rdptr.distance_behind (st.workers i).local_wrptr < S) <;>
    simp [h1, h2, h3, updf]

lemma sender_phase_send_frame {S R : Nat} (st : EdmState S R) (i : Nat) (b : Bool) :
    (sender_phase_send st i b).1.local_regs = st.local_regs ∧
    (sender_phase_send st i b).1.channel_connection_established =
      st.channel_connection_established ∧
    ((sender_phase_send st i b).1.workers i).local_rdptr = (st.workers i).local_rdptr ∧
    ((sender_phase_send st i b).1.workers i).local_ackptr = (st.workers i).local_ackptr ∧
    ((sender_phase_send st i b).1.workers i).connection_semaphore =
      (st.workers i).connection_semaphore ∧
    (sender_phase_send st i b).1.outbound.ack_ptr = st.outbound.ack_ptr ∧
    (sender_phase_send st i b).1.outbound.completion_ptr = st.outbound.completion_ptr := by
  unfold sender_phase_send send_next_data
  by_cases h1 : (st.outbound.has_space_for_packet && !b) <;>
    by_cases h2 : (st.workers i).has_unsent_payload <;>
    by_cases h3 : ((st.workers i).local_rdptr.distance_behind (st.workers i).local_wrptr < S) <;>
    simp [h1, h2, h3, updf]

lemma acked_ne_completed_stream (i : Nat) :
    to_sender_packets_acked_streams i ≠ to_sender_packets_completed_streams i := by
  unfold to_sender_packets_acked_streams to_sender_packets_completed_streams
    to_sender_0_pkts_acked_id to_sender_1_pkts_acked_id
    to_sender_0_pkts_completed_id to_sender_1_pkts_completed_id
  by_cases h : i = 0 <;> simp [h]

lemma sent_ne_acked_stream (i : Nat) :
    to_receiver_pkts_sent_id ≠ to_sender_packets_acked_streams i := by
  unfold to_sender_packets_acked_streams to_receiver_pkts_sent_id
    to_sender_0_pkts_acked_id to_sender_1_pkts_acked_id
  by_cases h : i = 0 <;> simp [h]

lemma sent_ne_completed_stream (i : Nat) :
    to_receiver_pkts_sent_id ≠ to_sender_packets_completed_streams i := by
  unfold to_sender_packets_completed_streams to_receiver_pkts_sent_id
    to_sender_0_pkts_completed_id to_sender_1_pkts_completed_id
  by_cases h : i = 0 <;> simp [h]

lemma sender_phase_completions_val {S R : Nat} (st : EdmState S R) (i : Nat) :
    (sender_phase_completions st i).2 =
      st.local_regs (to_sender_packets_completed_streams i) := by
  unfold sender_phase_completions
  by_cases h : (st.local_regs (to_sender_packets_completed_streams i) > 0) <;> simp [h]

lemma sender_phase_completions_state {S R : Nat} (st : EdmState S R) (i : Nat) :
    ((sender_phase_completions st i).1.workers i).local_rdptr =
      (if st.local_regs (to_sender_packets_completed_streams i) > 0 then
        (st.workers i).local_rdptr.increment_n
          (st.local_regs (to_sender_packets_completed_streams i)).toNat
      else (st.workers i).local_rdptr) ∧
    (sender_phase_completions st i).1.outbound.completion_ptr =
      (if st.local_regs (to_sender_packets_completed_streams i) > 0 then
        st.outbound.completion_ptr.increment_n
          (st.local_regs (to_sender_packets_completed_streams i)).toNat
      else st.outbound.completion_ptr) ∧
    (sender_phase_completions st i).1.local_regs (to_sender_packets_completed_streams i) =
      (if st.local_regs (to_sender_packets_completed_streams i) > 0 then 0
      else st.local_regs (to_sender_packets_completed_streams i)) := by
  unfold sender_phase_completions
  by_cases h : (st.local_regs (to_sender_packets_completed_streams i) > 0) <;>
    simp [h, updf]

lemma sender_phase_completions_frame {S R : Nat} (st : EdmState S R) (i : Nat) :
    ((sender_phase_completions st i).1.workers i).local_wrptr = (st.workers i).local_wrptr ∧
    ((sender_phase_completions st i).1.workers i).local_ackptr = (st.workers i).local_ackptr ∧
    ((sender_phase_completions st i).1.workers i).connection_semaphore =
      (st.workers i).connection_semaphore ∧
    ((sender_phase_completions st i).1.workers i).worker_wrptr_counter =
      (st.workers i).worker_wrptr_counter ∧
    (sender_phase_completions st i).1.outbound.wrptr = st.outbound.wrptr ∧
    (sender_phase_completions st i).1.outbound.ack_ptr = st.outbound.ack_ptr ∧
    (sender_phase_completions st i).1.remote_regs = st.remote_regs ∧
    (sender_phase_completions st i).1.channel_connection_established =
      st.channel_connection_established ∧
    (sender_phase_completions st i).1.local_regs (to_sender_packets_acked_streams i) =
      st.local_regs (to_sender_packets_acked_streams i) := by
  unfold sender_phase_completions
  by_cases h : (st.local_regs (to_sender_packets_completed_streams i) > 0) <;>
    simp [h, updf, acked_ne_completed_stream i]

lemma sender_phase_acks_val {S R : Nat} (st : EdmState S R) (i : Nat) :
    (sender_phase_acks st i).2 = st.local_regs (to_sender_packets_acked_streams i) := by
  unfold sender_phase_acks
  by_cases h : (st.local_regs (to_sender_packets_acked_streams i) > 0) <;> simp [h]

lemma sender_phase_acks_state {S R : Nat} (st : EdmState S R) (i : Nat) :
    ((sender_phase_acks st i).1.workers i).local_ackptr =
      (if st.local_regs (to_sender_packets_acked_streams i) > 0 then
        (st.workers i).local_ackptr.increment_n
          (st.local_regs (to_sender_packets_acked_streams i)).toNat
      else (st.workers i).local_ackptr) ∧
    ((sender_phase_acks st i).1.workers i).worker_flow_control_value =
      (if st.local_regs (to_sender_packets_acked_streams i) > 0 &&
          st.channel_connection_established i then
        ((st.workers i).local_ackptr.increment_n
          (st.local_regs (to_sender_packets_acked_streams i)).toNat).counter
      else (st.workers i).worker_flow_control_value) ∧
    (sender_phase_acks st i).1.local_regs (to_sender_packets_acked_streams i) =
      (if st.local_regs (to_sender_packets_acked_streams i) > 0 then 0
      else st.local_regs (to_sender_packets_acked_streams i)) := by
  unfold sender_phase_acks EdmChannelWorkerInterface.update_worker_copy_of_read_ptr
  by_cases h : (st.local_regs (to_sender_packets_acked_streams i) > 0) <;>
    by_cases hc : st.channel_connection_established i <;>
    simp [h, hc, updf]

lemma sender_phase_acks_frame {S R : Nat} (st : EdmState S R) (i : Nat) :
    ((sender_phase_acks st i).1.workers i).local_wrptr = (st.workers i).local_wrptr ∧
    ((sender_phase_acks st i).1.workers i).local_rdptr = (st.workers i).local_rdptr ∧
    ((sender_phase_acks st i).1.workers i).connection_semaphore =
      (st.workers i).connection_semaphore ∧
    ((sender_phase_acks st i).1.workers i).worker_wrptr_counter =
      (st.workers i).worker_wrptr_counter ∧
    (sender_phase_acks st i).1.outbound = st.outbound ∧
    (sender_phase_acks st i).1.remote_regs = st.remote_regs ∧
    (sender_phase_acks st i).1.channel_connection_established =
      st.channel_connection_established ∧
    (sender_phase_acks st i).1.local_regs (to_sender_packets_completed_streams i) =
      st.local_regs (to_sender_packets_completed_streams i) := by
  unfold sender_phase_acks EdmChannelWorkerInterface.update_worker_copy_of_read_ptr
  by_cases h : (st.local_regs (to_sender_packets_acked_streams i) > 0) <;>
    by_cases hc : st.channel_connection_established i <;>
    simp [h, hc, updf, (acked_ne_completed_stream i).symm]

lemma sender_phase_connection_frame {S R : Nat} (st : EdmState S R) (i : Nat) :
    ((sender_phase_connection st i).1.workers i).local_wrptr = (st.workers i).local_wrptr ∧
    ((sender_phase_connection st i).1.workers i).local_rdptr = (st.workers i).local_rdptr ∧
    ((sender_phase_connection st i).1.workers i).local_ackptr = (st.workers i).local_ackptr ∧
    (sender_phase_connection st i).1.outbound = st.outbound ∧
    (sender_phase_connection st i).1.remote_regs = st.remote_regs ∧
    (sender_phase_connection st i).1.local_regs = st.local_regs := by
  unfold sender_phase_connection EdmChannelWorkerInterface.update_worker_copy_of_read_ptr
    EdmChannelWorkerInterface.teardown_connection
  by_cases h1 : st.channel_connection_established i <;>
    by_cases h2 : (st.workers i).connection_is_live <;>
    by_cases h3 : (st.workers i).has_worker_teardown_request <;>
    simp [h1, h2, h3, updf]

/-- The sender-side outbound invariant that the code maintains: the
completion pointer trails the outbound write pointer by at most the receiver
buffer count. -/
def SenderOutboundOrdered (R : Nat) (o : OutboundReceiverChannelPointers R) : Prop :=
  o.wrptr.Wf ∧ o.completion_ptr.Wf ∧
    o.completion_ptr.distance_behind o.wrptr ≤ R

lemma sender_send_condition_space {S R : Nat} {st : EdmState S R} {i : Nat} {b : Bool}
    (h : sender_send_condition st i b = true) :
    st.outbound.completion_ptr.distance_behind st.outbound.wrptr < R := by
  unfold sender_send_condition OutboundReceiverChannelPointers.has_space_for_packet at h
  have h1 := ((Bool.and_eq_true _ _).mp h).1
  have h2 := ((Bool.and_eq_true _ _).mp h1).1
  have h3 := ((Bool.and_eq_true _ _).mp h2).1
  simpa using h3

lemma run_sender_channel_step_outbound {S R : Nat} (st : EdmState S R) (i : Nat)
    (b : Bool) (hR : R + 1 < PTR_MOD)
    (hord : SenderOutboundOrdered R st.outbound)
    (hcompl : st.local_regs (to_sender_packets_completed_streams i) ≤
      (st.outbound.completion_ptr.distance_behind st.outbound.wrptr : Int)) :
    SenderOutboundOrdered R (run_sender_channel_step st i b).1.outbound ∧
    (run_sender_channel_step st i b).1.outbound.ack_ptr = st.outbound.ack_ptr := by
  obtain ⟨hwfw, hwfc, hd⟩ := hord
  unfold run_sender_channel_step
  have hconn := sender_phase_connection_frame
    (sender_phase_acks (sender_phase_completions (sender_phase_send st i b).1 i).1 i).1 i
  have hacks := sender_phase_acks_frame
    (sender_phase_completions (sender_phase_send st i b).1 i).1 i
  have hout1 := sender_phase_send_outbound st i b
  have hregs1 := (sender_phase_send_frame st i b).1
  have hcomp2 := (sender_phase_completions_state (sender_phase_send st i b).1 i).2.1
  have hcompfr := sender_phase_completions_frame (sender_phase_send st i b).1 i
  dsimp only
  rw [hconn.2.2.2.1, hacks.2.2.2.2.1]
  constructor
  · refine ⟨?_, ?_, ?_⟩
    · rw [hcompfr.2.2.2.2.1, hout1]
      split
      · exact ChannelBufferPointer.wf_increment _
      · exact hwfw
    · rw [hcomp2, hregs1]
      split
      · exact ChannelBufferPointer.wf_increment_n _ _
      · rw [hout1]
        split <;> exact hwfc
    · rw [hcompfr.2.2.2.2.1, hcomp2, hregs1, hout1]
      by_cases hcond : sender_send_condition st i b = true
      · have hspace := sender_send_condition_space hcond
        have hdist1 : st.outbound.completion_ptr.distance_behind
            st.outbound.wrptr.increment =
            st.outbound.completion_ptr.distance_behind st.outbound.wrptr + 1 :=
          ChannelBufferPointer.distance_behind_increment_right hwfc hwfw (by omega)
        simp only [hcond, if_true]
        by_cases hc : st.local_regs (to_sender_packets_completed_streams i) > 0
        · simp only [hc, if_true]
          have hk : (st.local_regs (to_sender_packets_completed_streams i)).toNat ≤
              st.outbound.completion_ptr.distance_behind st.outbound.wrptr.increment := by
            rw [hdist1]; omega
          rw [ChannelBufferPointer.distance_behind_increment_n_left _ hwfc
            (ChannelBufferPointer.wf_increment _) hk]
          omega
        · simp only [hc, if_false]
          rw [hdist1]
          omega
      · have hcond' : sender_send_condition st i b = false := by
          revert hcond
          cases sender_send_condition st i b <;> simp
        simp only [hcond', Bool.false_eq_true, if_false]
        by_cases hc : st.local_regs (to_sender_packets_completed_streams i) > 0
        · simp only [hc, if_true]
          have hk : (st.local_regs (to_sender_packets_completed_streams i)).toNat ≤
              st.outbound.completion_ptr.distance_behind st.outbound.wrptr := by
            omega
          rw [ChannelBufferPointer.distance_behind_increment_n_left _ hwfc hwfw hk]
          omega
        · simp only [hc, if_false]
          exact hd
  · rw [hcompfr.2.2.2.2.2.1, (sender_phase_send_frame st i b).2.2.2.2.2.1]

/-- Recognizer for packet-transmission events in a sender-step trace. -/
def SenderEvent.isSend : SenderEvent → Bool
  | .sent_packet _ => true
  | _ => false

lemma sender_phase_connection_events {S R : Nat} (st : EdmState S R) (i : Nat) :
    (sender_phase_connection st i).2 = [] ∨
    (sender_phase_connection st i).2 = [SenderEvent.connection_established] ∨
    (sender_phase_connection st i).2 = [SenderEvent.connection_torn_down] := by
  unfold sender_phase_connection
  by_cases h1 : st.channel_connection_established i <;>
    by_cases h2 : (st.workers i).connection_is_live <;>
    by_cases h3 : (st.workers i).has_worker_teardown_request <;>
    simp [h1, h2, h3]

lemma sender_phase_connection_flag {S R : Nat} (st : EdmState S R) (i : Nat) :
    ((sender_phase_connection st i).1.channel_connection_established i ≠
      st.channel_connection_established i) ↔
    (sender_phase_connection st i).2 ≠ [] := by
  unfold sender_phase_connection
  by_cases h1 : st.channel_connection_established i <;>
    by_cases h2 : (st.workers i).connection_is_live <;>
    by_cases h3 : (st.workers i).has_worker_teardown_request <;>
    simp [h1, h2, h3, updf]

lemma run_sender_channel_step_send_effect {S R : Nat} (st : EdmState S R)
    (i : Nat) (b : Bool) :
    ((run_sender_channel_step st i b).1.workers i).local_wrptr =
      (if sender_send_condition st i b then (st.workers i).local_wrptr.increment
       else (st.workers i).local_wrptr) ∧
    (run_sender_channel_step st i b).1.outbound.wrptr =
      (if sender_send_condition st i b then st.outbound.wrptr.increment
       else st.outbound.wrptr) ∧
    (run_sender_channel_step st i b).1.remote_regs to_receiver_pkts_sent_id =
      (if sender_send_condition st i b then
        st.remote_regs to_receiver_pkts_sent_id + 1
       else st.remote_regs to_receiver_pkts_sent_id) ∧
    (run_sender_channel_step st i b).2.2.filter SenderEvent.isSend =
      (if sender_send_condition st i b then
        [SenderEvent.sent_packet (send_next_data st i).2]
       else []) := by
  unfold run_sender_channel_step
  have hconn := sender_phase_connection_frame
    (sender_phase_acks (sender_phase_completions (sender_phase_send st i b).1 i).1 i).1 i
  have hacks := sender_phase_acks_frame
    (sender_phase_completions (sender_phase_send st i b).1 i).1 i
  have hcompfr := sender_phase_completions_frame (sender_phase_send st i b).1 i
  dsimp only
  refine ⟨?_, ?_, ?_, ?_⟩
  · rw [hconn.1, hacks.1, hcompfr.1, sender_phase_send_wrptr]
  · rw [hconn.2.2.2.1, hacks.2.2.2.2.1, hcompfr.2.2.2.2.1, sender_phase_send_outbound]
    split <;> rfl
  · rw [hconn.2.2.2.2.1, hacks.2.2.2.2.2.1, hcompfr.2.2.2.2.2.2.1,
      sender_phase_send_remote_sent_reg]
  · rw [List.filter_append, List.filter_append, List.filter_append,
      sender_phase_send_events]
    have hconnev : ((sender_phase_connection
        (sender_phase_acks (sender_phase_completions (sender_phase_send st i b).1 i).1 i).1
        i).2.filter SenderEvent.isSend) = [] := by
      rcases sender_phase_connection_events
        (sender_phase_acks (sender_phase_completions (sender_phase_send st i b).1 i).1 i).1 i
        with h | h | h <;> simp [h, SenderEvent.isSend]
    rw [hconnev]
    by_cases hc : ((sender_phase_completions (sender_phase_send st i b).1 i).2 > 0) <;>
      by_cases ha : ((sender_phase_acks
        (sender_phase_completions (sender_phase_send st i b).1 i).1 i).2 > 0) <;>
      split <;>
      simp [hc, ha, SenderEvent.isSend]

lemma run_sender_channel_step_did_something {S R : Nat} (st : EdmState S R)
    (i : Nat) (b : Bool) :
    (run_sender_channel_step st i b).2.1 = true ↔
      (sender_send_condition st i b = true ∨
        0 < st.local_regs (to_sender_packets_completed_streams i) +
          st.local_regs (to_sender_packets_acked_streams i) ∨
        (run_sender_channel_step st i b).1.channel_connection_established i ≠
          st.channel_connection_established i) := by
  unfold run_sender_channel_step
  have hacksv := sender_phase_acks_val (sender_phase_completions (sender_phase_send st i b).1 i).1 i
  have hcompv := sender_phase_completions_val (sender_phase_send st i b).1 i
  have hacksregs := (sender_phase_completions_frame (sender_phase_send st i b).1 i).2.2.2.2.2.2.2.2
  have hregs1 := (sender_phase_send_frame st i b).1
  have hflag := sender_phase_connection_flag
    (sender_phase_acks (sender_phase_completions (sender_phase_send st i b).1 i).1 i).1 i
  have hflagpre : (sender_phase_acks (sender_phase_completions
      (sender_phase_send st i b).1 i).1 i).1.channel_connection_established i =
      st.channel_connection_established i := by
    rw [(sender_phase_acks_frame (sender_phase_completions (sender_phase_send st i b).1 i).1 i).2.2.2.2.2.2.1,
      (sender_phase_completions_frame (sender_phase_send st i b).1 i).2.2.2.2.2.2.2.1,
      (sender_phase_send_frame st i b).2.1]
  dsimp only
  rw [hacksv, hacksregs, hcompv, hregs1, sender_phase_send_events]
  rw [hflagpre] at hflag
  constructor
  · intro h
    have h' := (Bool.or_eq_true _ _).mp h
    rcases h' with h' | h'
    · have h'' := (Bool.or_eq_true _ _).mp h'
      rcases h'' with h'' | h''
      · left
        by_cases hcond : sender_send_condition st i b = true
        · exact hcond
        · exfalso
          have hcond' : sender_send_condition st i b = false := by
            revert hcond; cases sender_send_condition st i b <;> simp
          rw [hcond'] at h''
          simp at h''
      · right; left
        have := of_decide_eq_true h''
        omega
    · right; right
      exact hflag.mpr (by simpa using h')
  · intro h
    rcases h with h | h | h
    · apply (Bool.or_eq_true _ _).mpr
      left
      apply (Bool.or_eq_true _ _).mpr
      left
      rw [h]
      simp
    · apply (Bool.or_eq_true _ _).mpr
      left
      apply (Bool.or_eq_true _ _).mpr
      right
      exact decide_eq_true (by omega)
    · apply (Bool.or_eq_true _ _).mpr
      right
      simpa using hflag.mp h

/-- Recognizer for completion-counter events in a sender-step trace. -/
def SenderEvent.isCompletionEvt : SenderEvent → Bool
  | .read_completions _ => true
  | .drain_completions _ => true
  | _ => false

/-- Recognizer for ack-counter events in a sender-step trace. -/
def SenderEvent.isAckEvt : SenderEvent → Bool
  | .read_acks _ => true
  | .drain_acks _ => true
  | _ => false

/-- Helper scanning a trace: once an ack-counter event has been seen, no
completion-counter event may follow. -/
def orderedAux : Bool → List SenderEvent → Bool
  | _, [] => true
  | seenAck, e :: rest =>
      (!(seenAck && e.isCompletionEvt)) && orderedAux (seenAck || e.isAckEvt) rest

/-- A trace processes the completion counter strictly before the ack
counter: no completion-counter read or drain occurs after any ack-counter
read or drain. -/
def completions_before_acks (l : List SenderEvent) : Bool :=
  orderedAux false l

lemma run_sender_channel_step_trace_ordered {S R : Nat} (st : EdmState S R)
    (i : Nat) (b : Bool) :
    completions_before_acks (run_sender_channel_step st i b).2.2 = true := by
  unfold run_sender_channel_step
  dsimp only
  rw [sender_phase_send_events]
  rcases sender_phase_connection_events
      (sender_phase_acks (sender_phase_completions (sender_phase_send st i b).1 i).1 i).1 i
    with hce | hce | hce <;>
    rw [hce] <;>
    by_cases hcond : sender_send_condition st i b = true <;>
    by_cases hc : ((sender_phase_completions (sender_phase_send st i b).1 i).2 > 0) <;>
    by_cases ha : ((sender_phase_acks
      (sender_phase_completions (sender_phase_send st i b).1 i).1 i).2 > 0) <;>
    simp [hcond, hc, ha, completions_before_acks, orderedAux,
      SenderEvent.isCompletionEvt, SenderEvent.isAckEvt]

lemma sender_phase_connection_flow_preserved {S R : Nat} (st : EdmState S R) (i : Nat)
    (h : st.channel_connection_established i = true) :
    ((sender_phase_connection st i).1.workers i).worker_flow_control_value =
      (st.workers i).worker_flow_control_value := by
  unfold sender_phase_connection EdmChannelWorkerInterface.teardown_connection
  by_cases h3 : (st.workers i).has_worker_teardown_request <;> simp [h, h3, updf]

lemma run_sender_channel_step_drains {S R : Nat} (st : EdmState S R) (i : Nat) (b : Bool) :
    ((run_sender_channel_step st i b).1.workers i).local_rdptr =
      (if st.local_regs (to_sender_packets_completed_streams i) > 0 then
        (st.workers i).local_rdptr.increment_n
          (st.local_regs (to_sender_packets_completed_streams i)).toNat
      else (st.workers i).local_rdptr) ∧
    (run_sender_channel_step st i b).1.outbound.completion_ptr =
      (if st.local_regs (to_sender_packets_completed_streams i) > 0 then
        st.outbound.completion_ptr.increment_n
          (st.local_regs (to_sender_packets_completed_streams i)).toNat
      else st.outbound.completion_ptr) ∧
    (run_sender_channel_step st i b).1.local_regs
        (to_sender_packets_completed_streams i) =
      (if st.local_regs (to_sender_packets_completed_streams i) > 0 then 0
      else st.local_regs (to_sender_packets_completed_streams i)) ∧
    ((run_sender_channel_step st i b).1.workers i).local_ackptr =
      (if st.local_regs (to_sender_packets_acked_streams i) > 0 then
        (st.workers i).local_ackptr.increment_n
          (st.local_regs (to_sender_packets_acked_streams i)).toNat
      else (st.workers i).local_ackptr) ∧
    (run_sender_channel_step st i b).1.local_regs (to_sender_packets_acked_streams i) =
      (if st.local_regs (to_sender_packets_acked_streams i) > 0 then 0
      else st.local_regs (to_sender_packets_acked_streams i)) ∧
    (0 < st.local_regs (to_sender_packets_acked_streams i) →
      st.channel_connection_established i = true →
      ((run_sender_channel_step st i b).1.workers i).worker_flow_control_value =
        ((st.workers i).local_ackptr.increment_n
          (st.local_regs (to_sender_packets_acked_streams i)).toNat).counter) := by
  unfold run_sender_channel_step
  have hsend := sender_phase_send_frame st i b
  have hcompfr := sender_phase_completions_frame (sender_phase_send st i b).1 i
  have hcompst := sender_phase_completions_state (sender_phase_send st i b).1 i
  have hacksfr := sender_phase_acks_frame
    (sender_phase_completions (sender_phase_send st i b).1 i).1 i
  have hacksst := sender_phase_acks_state
    (sender_phase_completions (sender_phase_send st i b).1 i).1 i
  have hconnfr := sender_phase_connection_frame
    (sender_phase_acks (sender_phase_completions (sender_phase_send st i b).1 i).1 i).1 i
  have hflagpre : (sender_phase_completions (sender_phase_send st i b).1 i).1.channel_connection_established i =
      st.channel_connection_established i := by
    rw [hcompfr.2.2.2.2.2.2.2.1, hsend.2.1]
  dsimp only
  refine ⟨?_, ?_, ?_, ?_, ?_, ?_⟩
  · rw [hconnfr.2.1, hacksfr.2.1, hcompst.1, hsend.2.2.1, hsend.1]
  · rw [hconnfr.2.2.2.1, hacksfr.2.2.2.2.1, hcompst.2.1, hsend.1,
      (sender_phase_send_frame st i b).2.2.2.2.2.2]
  · rw [hconnfr.2.2.2.2.2, hacksfr.2.2.2.2.2.2.2, hcompst.2.2, hsend.1]
  · rw [hconnfr.2.2.1, hacksst.1, hcompfr.2.1, hcompfr.2.2.2.2.2.2.2.2, hsend.2.2.2.1, hsend.1]
  · rw [hconnfr.2.2.2.2.2, hacksst.2.2, hcompfr.2.2.2.2.2.2.2.2, hsend.1]
  · intro ha hconn
    have hflag2 : (sender_phase_acks (sender_phase_completions
        (sender_phase_send st i b).1 i).1 i).1.channel_connection_established i = true := by
      rw [hacksfr.2.2.2.2.2.2.1, hflagpre, hconn]
    rw [sender_phase_connection_flow_preserved _ i hflag2, hacksst.2.1,
      hcompfr.2.2.2.2.2.2.2.2, hsend.1, hcompfr.2.1, hsend.2.2.2.1, hflagpre, hconn]
    simp [ha]

lemma run_sender_channel_step_cumulative {S R : Nat} (st : EdmState S R)
    (i : Nat) (b : Bool)
    (hb1 : (st.workers i).local_rdptr.counter +
      (st.local_regs (to_sender_packets_completed_streams i)).toNat < PTR_MOD)
    (hb2 : (st.workers i).local_ackptr.counter +
      (st.local_regs (to_sender_packets_acked_streams i)).toNat < PTR_MOD)
    (hprot : (st.workers i).local_rdptr.counter +
        (st.local_regs (to_sender_packets_completed_streams i)).toNat ≤
      (st.workers i).local_ackptr.counter +
        (st.local_regs (to_sender_packets_acked_streams i)).toNat) :
    ((run_sender_channel_step st i b).1.workers i).local_rdptr.counter ≤
      ((run_sender_channel_step st i b).1.workers i).local_ackptr.counter := by
  have hd := run_sender_channel_step_drains st i b
  rw [hd.1, hd.2.2.2.1]
  by_cases hc : (st.local_regs (to_sender_packets_completed_streams i) > 0) <;>
    by_cases ha : (st.local_regs (to_sender_packets_acked_streams i) > 0) <;>
    simp only [hc, ha, if_true, if_false, ChannelBufferPointer.increment_n] <;>
    simp only [PTR_MOD] at * <;>
    omega

lemma receiver_phase_ack_wr_sent {S R : Nat} (st : EdmState S R) (b : Bool) :
    (receiver_phase_ack st b).receiver_pointers.wr_sent_ptr =
      st.receiver_pointers.wr_sent_ptr := by
  rw [receiver_phase_ack_ptrs]
  split <;> rfl

lemma receiver_phase_flush_wr_sent {S R : Nat} (st : EdmState S R) (fl : Bool) :
    (receiver_phase_flush st fl).receiver_pointers.wr_sent_ptr =
      st.receiver_pointers.wr_sent_ptr := by
  rw [receiver_phase_flush_ptrs]
  split <;> rfl

lemma receiver_phase_completion_wr_sent {S R : Nat} (st : EdmState S R) (b : Bool) :
    (receiver_phase_completion st b).receiver_pointers.wr_sent_ptr =
      st.receiver_pointers.wr_sent_ptr := by
  rw [receiver_phase_completion_ptrs]
  split <;> rfl

lemma receiver_phase_flush_downstream {S R : Nat} (st : EdmState S R) (fl : Bool) :
    (receiver_phase_flush st fl).downstream_edm_interface =
      st.downstream_edm_interface := by
  unfold receiver_phase_flush
  by_cases h : (!(st.receiver_pointers.wr_flush_ptr.is_caught_up_to
      st.receiver_pointers.wr_sent_ptr) && fl) <;> simp [h]

lemma receiver_phase_completion_downstream {S R : Nat} (st : EdmState S R) (b : Bool) :
    (receiver_phase_completion st b).downstream_edm_interface =
      st.downstream_edm_interface := by
  unfold receiver_phase_completion receiver_send_completion_ack
  by_cases h1 : st.receiver_pointers.completion_ptr.is_caught_up_to
      st.receiver_pointers.wr_flush_ptr <;>
    by_cases h2 : b <;> simp [h1, h2]

lemma receiver_phase_send_downstream (node : NodeId) {S R : Nat} (st : EdmState S R) :
    (receiver_phase_send node st).1.downstream_edm_interface =
      (if !(st.receiver_pointers.wr_sent_ptr.is_caught_up_to st.receiver_pointers.ack_ptr)
          && can_forward_packet_completely node
               (st.receiver_slots st.receiver_pointers.wr_sent_ptr.get_buffer_index)
               st.downstream_edm_interface then
        (receiver_forward_packet node
          (st.receiver_slots st.receiver_pointers.wr_sent_ptr.get_buffer_index)
          st.downstream_edm_interface).1
      else st.downstream_edm_interface) := by
  unfold receiver_phase_send
  by_cases h1 : st.receiver_pointers.wr_sent_ptr.is_caught_up_to st.receiver_pointers.ack_ptr <;>
    by_cases h2 : can_forward_packet_completely node
        (st.receiver_slots st.receiver_pointers.wr_sent_ptr.get_buffer_index)
        st.downstream_edm_interface <;>
    simp [h1, h2]

/-- The guard of the forward phase of the receiver step, evaluated on the
pre-step state (the ack phase does not move the write-sent pointer, the
receiver slots, or the downstream interface). -/
def receiver_forward_condition (node : NodeId) {S R : Nat} (st : EdmState S R)
    (env : ReceiverEnv) : Bool :=
  !(st.receiver_pointers.wr_sent_ptr.is_caught_up_to
      (receiver_phase_ack st env.eth_txq_busy_ack).receiver_pointers.ack_ptr) &&
    can_forward_packet_completely node
      (st.receiver_slots st.receiver_pointers.wr_sent_ptr.get_buffer_index)
      st.downstream_edm_interface

lemma run_receiver_channel_step_chars (node : NodeId) {S R : Nat} (st : EdmState S R)
    (rs : ReceiverState) (env : ReceiverEnv) :
    (run_receiver_channel_step node st rs env).2.2 =
      (if receiver_forward_condition node st env then
        (receiver_forward_packet node
          (st.receiver_slots st.receiver_pointers.wr_sent_ptr.get_buffer_index)
          st.downstream_edm_interface).2
      else ⟨false, false⟩) ∧
    (run_receiver_channel_step node st rs env).1.receiver_pointers.wr_sent_ptr =
      (if receiver_forward_condition node st env then
        st.receiver_pointers.wr_sent_ptr.increment
      else st.receiver_pointers.wr_sent_ptr) ∧
    (run_receiver_channel_step node st rs env).1.downstream_edm_interface =
      (if receiver_forward_condition node st env then
        (receiver_forward_packet node
          (st.receiver_slots st.receiver_pointers.wr_sent_ptr.get_buffer_index)
          st.downstream_edm_interface).1
      else st.downstream_edm_interface) ∧
    (run_receiver_channel_step node st rs env).2.1 = rs := by
  unfold run_receiver_channel_step
  have hfr := receiver_phase_ack_frame st env.eth_txq_busy_ack
  have hws := receiver_phase_ack_wr_sent st env.eth_txq_busy_ack
  have heff := receiver_phase_send_effects node (receiver_phase_ack st env.eth_txq_busy_ack)
  have hptr := receiver_phase_send_ptrs node (receiver_phase_ack st env.eth_txq_busy_ack)
  have hdsc := receiver_phase_send_downstream node (receiver_phase_ack st env.eth_txq_busy_ack)
  rw [hfr.1, hfr.2, hws] at heff hptr hdsc
  dsimp only
  refine ⟨?_, ?_, ?_, rfl⟩
  · rw [heff]
    rfl
  · rw [receiver_phase_completion_wr_sent, receiver_phase_flush_wr_sent, hptr]
    unfold receiver_forward_condition
    split
    · rfl
    · exact hws
  · rw [receiver_phase_completion_downstream, receiver_phase_flush_downstream, hdsc]
    rfl

/-- Recognizer for the continue outcome of a loop iteration. -/
def IterResult.isContinue {S R : Nat} : IterResult S R → Bool
  | .continueLoop _ _ => true
  | _ => false

lemma got_graceful_not_immediate {sig : TerminationSignal}
    (h : got_graceful_termination_signal sig = true) :
    got_immediate_termination_signal sig = false := by
  cases sig <;> simp [got_graceful_termination_signal,
    got_immediate_termination_signal] at *

lemma loop_iteration_gracefulExit (SWITCH_INTERVAL : Nat) (node : NodeId)
    {S R : Nat} (ls : LoopState S R) (e : IterEnv) (s : LoopState S R)
    (h : loop_iteration SWITCH_INTERVAL node ls e = .gracefulExit s) :
    got_graceful_termination_signal s.edm.termination_signal = true ∧
    all_channels_drained s.edm = true := by
  unfold loop_iteration at h
  by_cases h1 : got_immediate_termination_signal (applyEnv ls.edm e).termination_signal
  · simp [h1] at h
  · simp only [h1, Bool.false_eq_true, if_false] at h
    by_cases h2 : (got_graceful_termination_signal (applyEnv ls.edm e).termination_signal &&
        all_channels_drained (applyEnv ls.edm e))
    · simp only [h2, if_true] at h
      have hs : s = { ls with edm := applyEnv ls.edm e } := by
        cases h
        rfl
      subst hs
      exact ⟨((Bool.and_eq_true _ _).mp h2).1, ((Bool.and_eq_true _ _).mp h2).2⟩
    · simp only [h2, Bool.false_eq_true, if_false] at h
      split at h <;> simp at h
      split at h <;> simp at h

lemma loop_iteration_immediateExit (SWITCH_INTERVAL : Nat) (node : NodeId)
    {S R : Nat} (ls : LoopState S R) (e : IterEnv) (s : LoopState S R)
    (h : loop_iteration SWITCH_INTERVAL node ls e = .immediateExit s) :
    got_immediate_termination_signal s.edm.termination_signal = true := by
  unfold loop_iteration at h
  by_cases h1 : got_immediate_termination_signal (applyEnv ls.edm e).termination_signal
  · have hs : s = { ls with edm := applyEnv ls.edm e } := by
      simp only [h1, if_true] at h
      cases h
      rfl
    subst hs
    exact h1
  · simp only [h1, Bool.false_eq_true, if_false] at h
    by_cases h2 : (got_graceful_termination_signal (applyEnv ls.edm e).termination_signal &&
        all_channels_drained (applyEnv ls.edm e))
    · simp [h2] at h
    · simp only [h2, Bool.false_eq_true, if_false] at h
      split at h <;> simp at h
      split at h <;> simp at h

lemma loop_iteration_continue_of_not_drained (SWITCH_INTERVAL : Nat) (node : NodeId)
    {S R : Nat} (ls : LoopState S R) (e : IterEnv)
    (hg : got_graceful_termination_signal (applyEnv ls.edm e).termination_signal = true)
    (hnd : all_channels_drained (applyEnv ls.edm e) = false) :
    (loop_iteration SWITCH_INTERVAL node ls e).isContinue = true := by
  unfold loop_iteration
  simp only [got_graceful_not_immediate hg, Bool.false_eq_true, if_false, hg, hnd,
    Bool.and_false, if_false]
  split
  · rfl
  · split <;> rfl

lemma loop_iteration_continue_of_keep_running (SWITCH_INTERVAL : Nat) (node : NodeId)
    {S R : Nat} (ls : LoopState S R) (e : IterEnv)
    (hk : (applyEnv ls.edm e).termination_signal = .KEEP_RUNNING) :
    (loop_iteration SWITCH_INTERVAL node ls e).isContinue = true := by
  unfold loop_iteration
  simp only [hk]
  simp only [got_immediate_termination_signal, got_graceful_termination_signal,
    Bool.false_and, Bool.false_eq_true, if_false]
  split
  · rfl
  · split <;> rfl

lemma run_loop_graceful_drained (SWITCH_INTERVAL : Nat) (node : NodeId)
    {S R : Nat} :
    ∀ (fuel : Nat) (ls : LoopState S R) (env : Nat → IterEnv) (out : LoopState S R),
      run_loop_from SWITCH_INTERVAL node fuel ls env = .gracefulExit out →
      got_graceful_termination_signal out.edm.termination_signal = true ∧
      all_channels_drained out.edm = true := by
  intro fuel
  induction fuel with
  | zero =>
      intro ls env out h
      simp [run_loop_from] at h
  | succ n ih =>
      intro ls env out h
      unfold run_loop_from at h
      cases hit : loop_iteration SWITCH_INTERVAL node ls (env 0) with
      | immediateExit s => rw [hit] at h; simp at h
      | gracefulExit s =>
          rw [hit] at h
          have hs : s = out := by simpa using h
          subst hs
          exact loop_iteration_gracefulExit SWITCH_INTERVAL node ls (env 0) s hit
      | continueLoop s rr =>
          rw [hit] at h
          exact ih s (fun n => env (n + 1)) out h

lemma run_loop_never_returns (SWITCH_INTERVAL : Nat) (node : NodeId) {S R : Nat} :
    ∀ (fuel : Nat) (ls : LoopState S R) (env : Nat → IterEnv),
      (∀ j, j < fuel →
        got_graceful_termination_signal
          (applyEnv (iterState SWITCH_INTERVAL node j ls env).edm (env j)).termination_signal
            = true ∧
        all_channels_drained
          (applyEnv (iterState SWITCH_INTERVAL node j ls env).edm (env j)) = false) →
      run_loop_from SWITCH_INTERVAL node fuel ls env =
        .outOfFuel (iterState SWITCH_INTERVAL node fuel ls env) := by
  intro fuel
  induction fuel with
  | zero =>
      intro ls env _
      rfl
  | succ n ih =>
      intro ls env hall
      have h0 := hall 0 (Nat.succ_pos n)
      have h0' : got_graceful_termination_signal
          (applyEnv ls.edm (env 0)).termination_signal = true ∧
          all_channels_drained (applyEnv ls.edm (env 0)) = false := h0
      have hcont := loop_iteration_continue_of_not_drained SWITCH_INTERVAL node ls (env 0)
        h0'.1 h0'.2
      unfold run_loop_from
      cases hit : loop_iteration SWITCH_INTERVAL node ls (env 0) with
      | immediateExit s => rw [hit] at hcont; simp [IterResult.isContinue] at hcont
      | gracefulExit s => rw [hit] at hcont; simp [IterResult.isContinue] at hcont
      | continueLoop s rr =>
          have hnext : nextLoopState SWITCH_INTERVAL node ls (env 0) = s := by
            unfold nextLoopState
            rw [hit]
          have hiter : iterState SWITCH_INTERVAL node (n + 1) ls env =
              iterState SWITCH_INTERVAL node n s (fun m => env (m + 1)) := by
            rw [show iterState SWITCH_INTERVAL node (n + 1) ls env =
                iterState SWITCH_INTERVAL node n
                  (nextLoopState SWITCH_INTERVAL node ls (env 0))
                  (fun m => env (m + 1)) from rfl, hnext]
          rw [hiter]
          exact ih s (fun m => env (m + 1)) (by
            intro j hj
            have hj' := hall (j + 1) (Nat.succ_lt_succ hj)
            have hs : iterState SWITCH_INTERVAL node (j + 1) ls env =
                iterState SWITCH_INTERVAL node j s (fun m => env (m + 1)) := by
              rw [show iterState SWITCH_INTERVAL node (j + 1) ls env =
                  iterState SWITCH_INTERVAL node j
                    (nextLoopState SWITCH_INTERVAL node ls (env 0))
                    (fun m => env (m + 1)) from rfl, hnext]
            rw [hs] at hj'
            exact hj')

lemma all_channels_drained_iff {S R : Nat} (st : EdmState S R) :
    all_channels_drained st = true ↔
      ((st.workers 0).all_eth_packets_completed = true ∧
       (st.workers 1).all_eth_packets_completed = true ∧
       (st.workers 0).has_unsent_payload = false ∧
       (st.workers 1).has_unsent_payload = false ∧
       st.receiver_pointers.completion_ptr.is_caught_up_to
         st.receiver_pointers.ack_ptr = true ∧
       st.local_regs to_receiver_pkts_sent_id = 0 ∧
       st.local_regs to_sender_0_pkts_acked_id = 0 ∧
       st.local_regs to_sender_1_pkts_acked_id = 0 ∧
       st.local_regs to_sender_0_pkts_completed_id = 0 ∧
       st.local_regs to_sender_1_pkts_completed_id = 0) := by
  unfold all_channels_drained
  simp only [Bool.and_eq_true, Bool.not_eq_true', beq_iff_eq]
  tauto

/-- An all-zero packet header (unicast to mesh 0, chip 0, no payload). -/
def zeroHeader : PacketHeader :=
  ⟨0, 0, .CHIP_UNICAST, 0, 0, 0, 0, 0, 0⟩

/-- A quiescent worker interface: all pointers zero, no connection. -/
def zeroWorker : EdmChannelWorkerInterface 4 :=
  ⟨⟨0⟩, ⟨0⟩, ⟨0⟩, 0, .idle, 0, 0⟩

/-- A quiescent engine state with 4 sender and 4 receiver buffer slots:
all pointers and credit registers zero, empty buffers, downstream capacity
available. -/
def zeroEdmState : EdmState 4 4 where
  workers := fun _ => zeroWorker
  channel_connection_established := fun _ => false
  sender_slots := fun _ _ => zeroHeader
  outbound := ⟨⟨0⟩, ⟨0⟩, ⟨0⟩⟩
  remote_receiver_slots := fun _ => zeroHeader
  receiver_pointers := ⟨⟨0⟩, ⟨0⟩, ⟨0⟩, ⟨0⟩⟩
  receiver_slots := fun _ => zeroHeader
  receiver_slot_sync := fun _ => false
  remote_eth_sender_wrptrs := fun _ => ⟨0⟩
  downstream_edm_interface := ⟨true, []⟩
  local_regs := fun _ => 0
  remote_regs := fun _ => 0
  termination_signal := .KEEP_RUNNING

/-- An iteration environment with no external interference: no controller or
worker writes, no arriving credits or packets, all hardware polls idle. -/
def quietEnv : IterEnv :=
  ⟨none, fun _ => 0, [], none, none, none, none, true, false, ⟨false, false, true⟩⟩

/-- A worker interface with one pushed-but-unsent packet. -/
def onePushWorker : EdmChannelWorkerInterface 4 :=
  { zeroWorker with worker_wrptr_counter := 1 }

/-- A quiescent state in which sender channel 0 has one unsent packet. -/
def sendReadyState : EdmState 4 4 :=
  { zeroEdmState with workers := updf zeroEdmState.workers 0 onePushWorker }

/-- A state whose receiver holds one acked-but-unwritten packet (the ack
pointer is one ahead of the write-sent pointer). -/
def recvForwardState : EdmState 4 4 :=
  { zeroEdmState with receiver_pointers := ⟨⟨0⟩, ⟨0⟩, ⟨1⟩, ⟨0⟩⟩ }

/-- A multicast header whose hop-depth counters are all zero: it is neither
consumed locally nor forwardable, so it classifies as INVALID. -/
def invalidHeader : PacketHeader :=
  ⟨0, 0, .CHIP_MULTICAST, 0, 0, 0, 0, 0, 0⟩

/-- A state whose receiver holds one acked-but-unwritten packet whose header
classifies as INVALID. -/
def invalidSlotState : EdmState 4 4 :=
  { recvForwardState with receiver_slots := fun _ => invalidHeader }

/-- Claim C2: a sender channel step transmits exactly one packet — advancing
the local sender write pointer by one, the outbound remote-receiver write
pointer by one and the remote packets-sent counter by exactly one — if and
only if the remote receiver has a free slot, the transmit queue is idle, the
channel has an unsent payload and the producer is not backpressured; when
any condition fails, none of those quantities change anywhere in the step. -/
theorem C2_sender_sends_exactly_one_packet :
    ∀ (S R : Nat) (st : EdmState S R) (i : Nat) (b : Bool),
      (sender_send_condition st i b = true →
        ((run_sender_channel_step st i b).1.workers i).local_wrptr =
          (st.workers i).local_wrptr.increment ∧
        (run_sender_channel_step st i b).1.outbound.wrptr =
          st.outbound.wrptr.increment ∧
        (run_sender_channel_step st i b).1.remote_regs to_receiver_pkts_sent_id =
          st.remote_regs to_receiver_pkts_sent_id + 1 ∧
        (run_sender_channel_step st i b).2.2.filter SenderEvent.isSend =
          [SenderEvent.sent_packet (send_next_data st i).2]) ∧
      (sender_send_condition st i b = false →
        ((run_sender_channel_step st i b).1.workers i).local_wrptr =
          (st.workers i).local_wrptr ∧
        (run_sender_channel_step st i b).1.outbound.wrptr = st.outbound.wrptr ∧
        (run_sender_channel_step st i b).1.remote_regs to_receiver_pkts_sent_id =
          st.remote_regs to_receiver_pkts_sent_id ∧
        (run_sender_channel_step st i b).2.2.filter SenderEvent.isSend = []) := by
  intro S R st i b
  have h := run_sender_channel_step_send_effect st i b
  constructor <;> intro hc <;> simp only [hc, Bool.false_eq_true, if_true, if_false] at h <;>
    exact h

/-- Claim C2 witness: at a concrete state with one pushed packet the step
sends it; at the quiescent state it sends nothing. -/
theorem C2_sender_sends_exactly_one_packet_witness :
    ((run_sender_channel_step sendReadyState 0 false).1.workers 0).local_wrptr =
      (sendReadyState.workers 0).local_wrptr.increment ∧
    (run_sender_channel_step zeroEdmState 0 false).1.outbound.wrptr =
      zeroEdmState.outbound.wrptr ∧
    (run_sender_channel_step zeroEdmState 0 false).2.2.filter SenderEvent.isSend = [] :=
  ⟨((C2_sender_sends_exactly_one_packet 4 4 sendReadyState 0 false).1 (by decide)).1,
   ((C2_sender_sends_exactly_one_packet 4 4 zeroEdmState 0 false).2 (by decide)).2.1,
   ((C2_sender_sends_exactly_one_packet 4 4 zeroEdmState 0 false).2 (by decide)).2.2.2⟩

/-- Claim C4: `can_forward_packet_completely` returns true for LOCAL_ONLY,
equals the downstream capacity check for REMOTE_ONLY and LOCAL_AND_REMOTE,
and returns false for INVALID; and the receiver write-sent pointer advances
past a slot — and a local write or downstream enqueue runs — only when that
check returned true for the slot's packet. -/
theorem C4_capacity_checked_before_commit :
    (∀ (node : NodeId) (h : PacketHeader) (ds : WorkerToFabricEdmSender),
      (get_packet_local_forward_type node h = .PACKET_FORWARD_LOCAL_ONLY →
        can_forward_packet_completely node h ds = true) ∧
      (get_packet_local_forward_type node h = .PACKET_FORWARD_REMOTE_ONLY ∨
          get_packet_local_forward_type node h = .PACKET_FORWARD_LOCAL_AND_REMOTE →
        can_forward_packet_completely node h ds = ds.edm_has_space_for_packet) ∧
      (get_packet_local_forward_type node h = .PACKET_FORWARD_INVALID →
        can_forward_packet_completely node h ds = false)) ∧
    (∀ (S R : Nat) (node : NodeId) (st : EdmState S R) (rs : ReceiverState)
        (env : ReceiverEnv),
      ((run_receiver_channel_step node st rs env).1.receiver_pointers.wr_sent_ptr ≠
          st.receiver_pointers.wr_sent_ptr ∨
        (run_receiver_channel_step node st rs env).2.2.wrote_local = true ∨
        (run_receiver_channel_step node st rs env).2.2.forwarded_downstream = true) →
      can_forward_packet_completely node
        (st.receiver_slots st.receiver_pointers.wr_sent_ptr.get_buffer_index)
        st.downstream_edm_interface = true) := by
  constructor
  · intro node h ds
    refine ⟨fun hg => ?_, fun hg => ?_, fun hg => ?_⟩
    · simp [can_forward_packet_completely, hg]
    · rcases hg with hg | hg <;>
        simp [can_forward_packet_completely, hg,
          WorkerToFabricEdmSender.edm_has_space_for_packet]
    · simp [can_forward_packet_completely, hg]
  · intro S R node st rs env hdisj
    have hc := run_receiver_channel_step_chars node st rs env
    by_cases hcond : receiver_forward_condition node st env = true
    · unfold receiver_forward_condition at hcond
      exact ((Bool.and_eq_true _ _).mp hcond).2
    · have hcond' : receiver_forward_condition node st env = false := by
        revert hcond
        cases receiver_forward_condition node st env <;> simp
      exfalso
      rw [hcond'] at hc
      simp only [Bool.false_eq_true, if_false] at hc
      rcases hdisj with hd | hd | hd
      · exact hd hc.2.1
      · rw [hc.1] at hd
        simp at hd
      · rw [hc.1] at hd
        simp at hd

/-- Claim C4 witness: a locally consumed packet forwards without a capacity
check, and at a concrete state where the write-sent pointer advanced the
capacity check had returned true. -/
theorem C4_capacity_checked_before_commit_witness :
    can_forward_packet_completely ⟨0, 0⟩ zeroHeader ⟨false, []⟩ = true ∧
    can_forward_packet_completely ⟨0, 0⟩
      (recvForwardState.receiver_slots
        recvForwardState.receiver_pointers.wr_sent_ptr.get_buffer_index)
      recvForwardState.downstream_edm_interface = true :=
  ⟨(C4_capacity_checked_before_commit.1 ⟨0, 0⟩ zeroHeader ⟨false, []⟩).1 (by decide),
   C4_capacity_checked_before_commit.2 4 4 ⟨0, 0⟩ recvForwardState
     .RECEIVER_WAITING_FOR_ETH ⟨false, false, true⟩ (Or.inl (by decide))⟩

/-- Claim C5: when the packet at the write-sent slot classifies as INVALID,
the receiver step neither writes locally nor forwards downstream, and the
write-sent pointer does not advance past that slot. -/
theorem C5_invalid_packet_not_forwarded :
    ∀ (S R : Nat) (node : NodeId) (st : EdmState S R) (rs : ReceiverState)
      (env : ReceiverEnv),
      get_packet_local_forward_type node
          (st.receiver_slots st.receiver_pointers.wr_sent_ptr.get_buffer_index) =
        .PACKET_FORWARD_INVALID →
      (run_receiver_channel_step node st rs env).2.2.wrote_local = false ∧
      (run_receiver_channel_step node st rs env).2.2.forwarded_downstream = false ∧
      (run_receiver_channel_step node st rs env).1.receiver_pointers.wr_sent_ptr =
        st.receiver_pointers.wr_sent_ptr ∧
      (run_receiver_channel_step node st rs env).1.downstream_edm_interface.forwarded =
        st.downstream_edm_interface.forwarded := by
  intro S R node st rs env hinv
  have hcf : can_forward_packet_completely node
      (st.receiver_slots st.receiver_pointers.wr_sent_ptr.get_buffer_index)
      st.downstream_edm_interface = false := by
    simp [can_forward_packet_completely, hinv]
  have hcond : receiver_forward_condition node st env = false := by
    unfold receiver_forward_condition
    rw [hcf]
    simp
  have hc := run_receiver_channel_step_chars node st rs env
  rw [hcond] at hc
  simp only [Bool.false_eq_true, if_false] at hc
  exact ⟨by rw [hc.1], by rw [hc.1], hc.2.1, by rw [hc.2.2.1]⟩

/-- Claim C5 witness: at a concrete state whose pending slot holds an
all-zero-hop multicast header (classified INVALID), the step performs no
local write, no forward, and leaves the write-sent pointer in place. -/
theorem C5_invalid_packet_not_forwarded_witness :
    (run_receiver_channel_step ⟨0, 0⟩ invalidSlotState .RECEIVER_WAITING_FOR_ETH
      ⟨false, false, true⟩).2.2.wrote_local = false ∧
    (run_receiver_channel_step ⟨0, 0⟩ invalidSlotState .RECEIVER_WAITING_FOR_ETH
      ⟨false, false, true⟩).1.receiver_pointers.wr_sent_ptr =
      invalidSlotState.receiver_pointers.wr_sent_ptr :=
  ⟨(C5_invalid_packet_not_forwarded 4 4 ⟨0, 0⟩ invalidSlotState
      .RECEIVER_WAITING_FOR_ETH ⟨false, false, true⟩ (by decide)).1,
   (C5_invalid_packet_not_forwarded 4 4 ⟨0, 0⟩ invalidSlotState
      .RECEIVER_WAITING_FOR_ETH ⟨false, false, true⟩ (by decide)).2.2.1⟩

/-- Claim C9: `send_next_data` on sender channel `i` overwrites the
transmitted header's source-channel id with `i` (regardless of what the
worker wrote there), and the receiver's per-packet acknowledgement and
completion each increment exactly the acked/completed stream register
selected by the source-channel id stored in the packet that was
transmitted. -/
theorem C9_src_channel_id_stamped :
    (∀ (S R : Nat) (st : EdmState S R) (i : Nat),
      (send_next_data st i).2.src_ch_id = i ∧
      ((send_next_data st i).1.remote_receiver_slots
          st.outbound.wrptr.get_buffer_index).src_ch_id = i ∧
      ((send_next_data st i).1.sender_slots i
          (st.workers i).local_wrptr.get_buffer_index).src_ch_id = i) ∧
    (∀ (S R : Nat) (st : EdmState S R) (p : ChannelBufferPointer R) (s : Nat),
      (receiver_send_received_ack st p).remote_regs
          (to_sender_packets_acked_streams
            ((st.receiver_slots p.get_buffer_index).src_ch_id)) =
        st.remote_regs (to_sender_packets_acked_streams
            ((st.receiver_slots p.get_buffer_index).src_ch_id)) + 1 ∧
      (s ≠ to_sender_packets_acked_streams
          ((st.receiver_slots p.get_buffer_index).src_ch_id) →
        (receiver_send_received_ack st p).remote_regs s = st.remote_regs s)) ∧
    (∀ (S R : Nat) (st : EdmState S R) (s : Nat),
      (receiver_send_completion_ack st).remote_regs
          (to_sender_packets_completed_streams
            ((st.receiver_slots
              st.receiver_pointers.completion_ptr.get_buffer_index).src_ch_id)) =
        st.remote_regs (to_sender_packets_completed_streams
            ((st.receiver_slots
              st.receiver_pointers.completion_ptr.get_buffer_index).src_ch_id)) + 1 ∧
      (s ≠ to_sender_packets_completed_streams
          ((st.receiver_slots
            st.receiver_pointers.completion_ptr.get_buffer_index).src_ch_id) →
        (receiver_send_completion_ack st).remote_regs s = st.remote_regs s)) := by
  refine ⟨?_, ?_, ?_⟩
  · intro S R st i
    refine ⟨rfl, ?_, ?_⟩ <;> simp [send_next_data, updf]
  · intro S R st p s
    constructor
    · simp [receiver_send_received_ack, updf]
    · intro hs
      simp [receiver_send_received_ack, updf, hs]
  · intro S R st s
    constructor
    · simp [receiver_send_completion_ack, updf]
    · intro hs
      simp [receiver_send_completion_ack, updf, hs]

/-- Claim C9 witness: even when the worker wrote source-channel id 7 into
the header, channel 1 stamps id 1 before transmission, and the receiver ack
for a slot carrying id 1 targets channel 1's acked stream register. -/
theorem C9_src_channel_id_stamped_witness :
    (send_next_data
      { zeroEdmState with sender_slots := fun _ _ => { zeroHeader with src_ch_id := 7 } }
      1).2.src_ch_id = 1 ∧
    (receiver_send_received_ack
        { zeroEdmState with receiver_slots := fun _ => { zeroHeader with src_ch_id := 1 } }
        (⟨0⟩ : ChannelBufferPointer 4)).remote_regs to_sender_1_pkts_acked_id =
      { zeroEdmState with receiver_slots := fun _ => { zeroHeader with src_ch_id := 1 } }.remote_regs
        to_sender_1_pkts_acked_id + 1 :=
  ⟨(C9_src_channel_id_stamped.1 4 4
      { zeroEdmState with sender_slots := fun _ _ => { zeroHeader with src_ch_id := 7 } }
      1).1,
   (C9_src_channel_id_stamped.2.1 4 4
      { zeroEdmState with receiver_slots := fun _ => { zeroHeader with src_ch_id := 1 } }
      (⟨0⟩ : ChannelBufferPointer 4) 0).1⟩

/-- Claim C10: on entry, before its first poll, the main loop
unconditionally overwrites the termination signal with KEEP_RUNNING, so any
value written before the loop starts (including immediately-terminate and
gracefully-terminate) is discarded: unless the environment writes the signal
again, the first iteration observes KEEP_RUNNING and does not return. -/
theorem C10_entry_overwrites_termination_signal :
    ∀ (S R : Nat) (st : EdmState S R) (SWITCH_INTERVAL : Nat) (node : NodeId)
      (e : IterEnv),
      (main_loop_entry st).edm.termination_signal = TerminationSignal.KEEP_RUNNING ∧
      (e.signal_write = none →
        (applyEnv (main_loop_entry st).edm e).termination_signal =
          TerminationSignal.KEEP_RUNNING ∧
        (loop_iteration SWITCH_INTERVAL node (main_loop_entry st) e).isContinue = true) := by
  intro S R st SWITCH_INTERVAL node e
  refine ⟨rfl, fun hn => ?_⟩
  have hk : (applyEnv (main_loop_entry st).edm e).termination_signal =
      TerminationSignal.KEEP_RUNNING := by
    simp [applyEnv, main_loop_entry, hn]
  exact ⟨hk, loop_iteration_continue_of_keep_running SWITCH_INTERVAL node _ e hk⟩

/-- Claim C10 witness: starting from a state whose termination signal was
pre-set to IMMEDIATELY_TERMINATE, the loop entry resets it to KEEP_RUNNING
and the first iteration continues rather than terminating. -/
theorem C10_entry_overwrites_termination_signal_witness :
    (main_loop_entry
        { zeroEdmState with termination_signal := .IMMEDIATELY_TERMINATE }).edm.termination_signal =
      TerminationSignal.KEEP_RUNNING ∧
    (loop_iteration 0 ⟨0, 0⟩
        (main_loop_entry { zeroEdmState with termination_signal := .IMMEDIATELY_TERMINATE })
        quietEnv).isContinue = true :=
  ⟨(C10_entry_overwrites_termination_signal 4 4
      { zeroEdmState with termination_signal := .IMMEDIATELY_TERMINATE } 0 ⟨0, 0⟩ quietEnv).1,
   ((C10_entry_overwrites_termination_signal 4 4
      { zeroEdmState with termination_signal := .IMMEDIATELY_TERMINATE } 0 ⟨0, 0⟩ quietEnv).2
      rfl).2⟩

/-- State after the sender sends its one pushed packet, then the remote
receiver acks and completes that packet (one credit arrives on each of the
acked and completed streams for channel 0). -/
def c1MidState : EdmState 4 4 :=
  { (run_sender_channel_step sendReadyState 0 false).1 with
    local_regs :=
      updf (updf (run_sender_channel_step sendReadyState 0 false).1.local_regs
        to_sender_0_pkts_acked_id 1) to_sender_0_pkts_completed_id 1 }

/-- State after the sender then drains that ack and completion. -/
def c1FinalState : EdmState 4 4 :=
  (run_sender_channel_step c1MidState 0 false).1

/-- Claim C1 counterexample: after one packet is sent, acked and completed —
a protocol-conforming run built from two concrete sender steps — the
outbound view has completion pointer 1 but ack pointer still 0: the sender
step never advances the outbound ack pointer, so the claimed
completion_ptr ≤ ack_ptr ordering on the sender's outbound view is violated
(the completion pointer has overtaken the ack pointer both as a counter and
as a trailing distance). -/
theorem C1_counterexample_outbound_ack_ptr :
    c1FinalState.outbound.completion_ptr.counter = 1 ∧
    c1FinalState.outbound.ack_ptr.counter = 0 ∧
    c1FinalState.outbound.wrptr.counter = 1 ∧
    ¬(c1FinalState.outbound.completion_ptr.counter ≤
        c1FinalState.outbound.ack_ptr.counter) ∧
    ¬(c1FinalState.outbound.completion_ptr.distance_behind
        c1FinalState.outbound.ack_ptr ≤ 4) := by
  decide

/-- Claim C1 (amended): every receiver channel step preserves the receiver
ordering invariant completion_ptr ≤ write_flush_ptr ≤ write_sent_ptr ≤
ack_ptr (chain span at most the buffer count), given the overflow
precondition the code itself asserts; and every sender channel step
preserves completion_ptr ≤ write_ptr on the outbound view (given that the
receiver never reports more completions than packets in flight) while never
advancing the outbound ack pointer — the middle inequality
completion_ptr ≤ ack_ptr of the original claim does not hold for the
outbound view because its ack pointer field is never updated. -/
theorem C1_pointer_ordering_preserved :
    (∀ (S R : Nat) (node : NodeId) (st : EdmState S R) (rs : ReceiverState)
        (env : ReceiverEnv),
      R + 1 < PTR_MOD →
      RecvOrdered R st.receiver_pointers →
      (0 < st.local_regs to_receiver_pkts_sent_id →
        recvSpan st.receiver_pointers < R) →
      RecvOrdered R (run_receiver_channel_step node st rs env).1.receiver_pointers) ∧
    (∀ (S R : Nat) (st : EdmState S R) (i : Nat) (b : Bool),
      R + 1 < PTR_MOD →
      SenderOutboundOrdered R st.outbound →
      st.local_regs (to_sender_packets_completed_streams i) ≤
        (st.outbound.completion_ptr.distance_behind st.outbound.wrptr : Int) →
      SenderOutboundOrdered R (run_sender_channel_step st i b).1.outbound ∧
      (run_sender_channel_step st i b).1.outbound.ack_ptr = st.outbound.ack_ptr) := by
  constructor
  · intro S R node st rs env hR hord hassert
    exact run_receiver_channel_step_ordered node st rs env hR hord hassert
  · intro S R st i b hR hord hcompl
    exact run_sender_channel_step_outbound st i b hR hord hcompl

/-- Claim C1 witness: both parts applied at concrete quiescent states with
4-slot channels. -/
theorem C1_pointer_ordering_preserved_witness :
    RecvOrdered 4 (run_receiver_channel_step ⟨0, 0⟩ zeroEdmState
      .RECEIVER_WAITING_FOR_ETH ⟨false, false, true⟩).1.receiver_pointers ∧
    SenderOutboundOrdered 4 (run_sender_channel_step sendReadyState 0 false).1.outbound ∧
    (run_sender_channel_step sendReadyState 0 false).1.outbound.ack_ptr =
      sendReadyState.outbound.ack_ptr :=
  ⟨C1_pointer_ordering_preserved.1 4 4 ⟨0, 0⟩ zeroEdmState
      .RECEIVER_WAITING_FOR_ETH ⟨false, false, true⟩ (by decide)
      ⟨⟨by unfold ChannelBufferPointer.Wf; decide, by unfold ChannelBufferPointer.Wf; decide,
         by unfold ChannelBufferPointer.Wf; decide, by unfold ChannelBufferPointer.Wf; decide⟩,
        by decide⟩
      (fun h => absurd h (by decide)),
   (C1_pointer_ordering_preserved.2 4 4 sendReadyState 0 false (by decide)
      ⟨by unfold ChannelBufferPointer.Wf; decide,
       by unfold ChannelBufferPointer.Wf; decide, by decide⟩ (by decide)).1,
   (C1_pointer_ordering_preserved.2 4 4 sendReadyState 0 false (by decide)
      ⟨by unfold ChannelBufferPointer.Wf; decide,
       by unfold ChannelBufferPointer.Wf; decide, by decide⟩ (by decide)).2⟩

/-- Total completion count a sender step observed (sum of its
completion-counter reads; each step performs exactly one). -/
def traceCompletionsObserved (l : List SenderEvent) : Int :=
  (l.filterMap fun e =>
    match e with
    | SenderEvent.read_completions n => some n
    | _ => none).foldl (fun a b => a + b) 0

/-- Total ack count a sender step observed (sum of its ack-counter reads). -/
def traceAcksObserved (l : List SenderEvent) : Int :=
  (l.filterMap fun e =>
    match e with
    | SenderEvent.read_acks n => some n
    | _ => none).foldl (fun a b => a + b) 0

/-- Sender channel 0 after five packets were pushed and sent (write pointers
at 5) while the receiver has acked all five (five pending ack credits) and
completed none yet. -/
def c3StartState : EdmState 4 4 :=
  { zeroEdmState with
    workers := updf zeroEdmState.workers 0 ⟨⟨5⟩, ⟨0⟩, ⟨0⟩, 5, .idle, 0, 0⟩,
    outbound := ⟨⟨5⟩, ⟨0⟩, ⟨0⟩⟩,
    local_regs := updf zeroEdmState.local_regs to_sender_0_pkts_acked_id 5 }

/-- After one sender step drains the five acks, the receiver completes all
five previously acked packets (five completion credits arrive); cumulative
completions (5) never exceeded cumulative acks (5), so the run respects the
receiver protocol. -/
def c3MidState : EdmState 4 4 :=
  { (run_sender_channel_step c3StartState 0 false).1 with
    local_regs :=
      updf (run_sender_channel_step c3StartState 0 false).1.local_regs
        to_sender_0_pkts_completed_id 5 }

/-- The trace of the next sender step from that reachable state. -/
def c3Trace : List SenderEvent :=
  (run_sender_channel_step c3MidState 0 false).2.2

/-- Claim C3 counterexample: in the step from `c3MidState` — reached by a
receiver-protocol-conforming run — the sender observes 5 completions but 0
acks, so the number of acks observed in a step is not always greater than or
equal to the number of completions observed in that same step. -/
theorem C3_counterexample_per_step_counts :
    traceCompletionsObserved c3Trace = 5 ∧
    traceAcksObserved c3Trace = 0 ∧
    traceAcksObserved c3Trace < traceCompletionsObserved c3Trace := by
  decide

/-- Claim C3 (amended): within every sender channel step the
packets-completed counter is read and drained strictly before the
packets-acked counter (never the other way around); draining completions
advances the local read pointer and outbound completion pointer by exactly
the observed count and clears the counter; draining acks advances the local
ack pointer by the observed count, clearing the counter, and republishes the
read pointer to a connected worker.  The per-step comparison of the original
claim is replaced by the cumulative guarantee this ordering actually
provides: as long as the receiver never completes more packets than it has
acked (cumulatively), the local ack pointer never falls behind the local
read pointer. -/
theorem C3_completions_drained_before_acks :
    (∀ (S R : Nat) (st : EdmState S R) (i : Nat) (b : Bool),
      completions_before_acks (run_sender_channel_step st i b).2.2 = true) ∧
    (∀ (S R : Nat) (st : EdmState S R) (i : Nat) (b : Bool),
      ((run_sender_channel_step st i b).1.workers i).local_rdptr =
        (if st.local_regs (to_sender_packets_completed_streams i) > 0 then
          (st.workers i).local_rdptr.increment_n
            (st.local_regs (to_sender_packets_completed_streams i)).toNat
        else (st.workers i).local_rdptr) ∧
      (run_sender_channel_step st i b).1.outbound.completion_ptr =
        (if st.local_regs (to_sender_packets_completed_streams i) > 0 then
          st.outbound.completion_ptr.increment_n
            (st.local_regs (to_sender_packets_completed_streams i)).toNat
        else st.outbound.completion_ptr) ∧
      (run_sender_channel_step st i b).1.local_regs
          (to_sender_packets_completed_streams i) =
        (if st.local_regs (to_sender_packets_completed_streams i) > 0 then 0
        else st.local_regs (to_sender_packets_completed_streams i)) ∧
      ((run_sender_channel_step st i b).1.workers i).local_ackptr =
        (if st.local_regs (to_sender_packets_acked_streams i) > 0 then
          (st.workers i).local_ackptr.increment_n
            (st.local_regs (to_sender_packets_acked_streams i)).toNat
        else (st.workers i).local_ackptr) ∧
      (run_sender_channel_step st i b).1.local_regs
          (to_sender_packets_acked_streams i) =
        (if st.local_regs (to_sender_packets_acked_streams i) > 0 then 0
        else st.local_regs (to_sender_packets_acked_streams i)) ∧
      (0 < st.local_regs (to_sender_packets_acked_streams i) →
        st.channel_connection_established i = true →
        ((run_sender_channel_step st i b).1.workers i).worker_flow_control_value =
          ((st.workers i).local_ackptr.increment_n
            (st.local_regs (to_sender_packets_acked_streams i)).toNat).counter)) ∧
    (∀ (S R : Nat) (st : EdmState S R) (i : Nat) (b : Bool),
      (st.workers i).local_rdptr.counter +
          (st.local_regs (to_sender_packets_completed_streams i)).toNat < PTR_MOD →
      (st.workers i).local_ackptr.counter +
          (st.local_regs (to_sender_packets_acked_streams i)).toNat < PTR_MOD →
      (st.workers i).local_rdptr.counter +
          (st.local_regs (to_sender_packets_completed_streams i)).toNat ≤
        (st.workers i).local_ackptr.counter +
          (st.local_regs (to_sender_packets_acked_streams i)).toNat →
      ((run_sender_channel_step st i b).1.workers i).local_rdptr.counter ≤
        ((run_sender_channel_step st i b).1.workers i).local_ackptr.counter) := by
  refine ⟨?_, ?_, ?_⟩
  · intro S R st i b
    exact run_sender_channel_step_trace_ordered st i b
  · intro S R st i b
    exact run_sender_channel_step_drains st i b
  · intro S R st i b hb1 hb2 hprot
    exact run_sender_channel_step_cumulative st i b hb1 hb2 hprot

/-- Claim C3 witness: the ordering and drain effects at the concrete
five-completion state, and the cumulative guarantee there with its
hypotheses discharged. -/
theorem C3_completions_drained_before_acks_witness :
    completions_before_acks (run_sender_channel_step c3MidState 0 false).2.2 = true ∧
    (run_sender_channel_step c3MidState 0 false).1.local_regs
      to_sender_0_pkts_completed_id =
      (if c3MidState.local_regs (to_sender_packets_completed_streams 0) > 0 then 0
      else c3MidState.local_regs (to_sender_packets_completed_streams 0)) ∧
    ((run_sender_channel_step c3MidState 0 false).1.workers 0).local_rdptr.counter ≤
      ((run_sender_channel_step c3MidState 0 false).1.workers 0).local_ackptr.counter :=
  ⟨C3_completions_drained_before_acks.1 4 4 c3MidState 0 false,
   (C3_completions_drained_before_acks.2.1 4 4 c3MidState 0 false).2.2.1,
   C3_completions_drained_before_acks.2.2 4 4 c3MidState 0 false (by decide) (by decide)
     (by decide)⟩

/-- An iteration environment in which the controller writes a graceful
termination request and nothing else happens. -/
def c6GracefulEnv : IterEnv :=
  { quietEnv with signal_write := some .GRACEFULLY_TERMINATE }

/-- The main-loop bookkeeping over the quiescent (fully drained) engine. -/
def c6StartLoop : LoopState 4 4 :=
  ⟨zeroEdmState, 0, 0, .RECEIVER_WAITING_FOR_ETH⟩

/-- The loop state in which the drained check succeeds and the loop returns. -/
def c6ExitLoop : LoopState 4 4 :=
  { c6StartLoop with edm := applyEnv zeroEdmState c6GracefulEnv }

/-- A state that is not drained: one packets-sent credit is outstanding. -/
def c6BusyLoop : LoopState 4 4 :=
  ⟨{ zeroEdmState with
      local_regs := updf zeroEdmState.local_regs to_receiver_pkts_sent_id 1 },
    0, 0, .RECEIVER_WAITING_FOR_ETH⟩

/-- Claim C6: under a graceful termination request the main loop returns only
when all channels are drained — both sender worker interfaces have no unsent
payload and all their ethernet packets completed, the receiver completion
pointer has caught its ack pointer, and all five credit stream registers
read zero — and as long as the drain check fails (while the signal stays
graceful) the loop keeps servicing channels and never returns. -/
theorem C6_graceful_return_requires_drain :
    (∀ (SWITCH_INTERVAL : Nat) (node : NodeId) (S R : Nat) (fuel : Nat)
        (ls : LoopState S R) (env : Nat → IterEnv) (out : LoopState S R),
      run_loop_from SWITCH_INTERVAL node fuel ls env = .gracefulExit out →
      got_graceful_termination_signal out.edm.termination_signal = true ∧
      (out.edm.workers 0).all_eth_packets_completed = true ∧
      (out.edm.workers 1).all_eth_packets_completed = true ∧
      (out.edm.workers 0).has_unsent_payload = false ∧
      (out.edm.workers 1).has_unsent_payload = false ∧
      out.edm.receiver_pointers.completion_ptr.is_caught_up_to
        out.edm.receiver_pointers.ack_ptr = true ∧
      out.edm.local_regs to_receiver_pkts_sent_id = 0 ∧
      out.edm.local_regs to_sender_0_pkts_acked_id = 0 ∧
      out.edm.local_regs to_sender_1_pkts_acked_id = 0 ∧
      out.edm.local_regs to_sender_0_pkts_completed_id = 0 ∧
      out.edm.local_regs to_sender_1_pkts_completed_id = 0) ∧
    (∀ (SWITCH_INTERVAL : Nat) (node : NodeId) (S R : Nat) (fuel : Nat)
        (ls : LoopState S R) (env : Nat → IterEnv),
      (∀ j, j < fuel →
        got_graceful_termination_signal
          (applyEnv (iterState SWITCH_INTERVAL node j ls env).edm
            (env j)).termination_signal = true ∧
        all_channels_drained
          (applyEnv (iterState SWITCH_INTERVAL node j ls env).edm (env j)) = false) →
      run_loop_from SWITCH_INTERVAL node fuel ls env =
        .outOfFuel (iterState SWITCH_INTERVAL node fuel ls env)) := by
  constructor
  · intro SWITCH_INTERVAL node S R fuel ls env out hrun
    have h := run_loop_graceful_drained SWITCH_INTERVAL node fuel ls env out hrun
    have hd := (all_channels_drained_iff out.edm).mp h.2
    exact ⟨h.1, hd.1, hd.2.1, hd.2.2.1, hd.2.2.2.1, hd.2.2.2.2.1, hd.2.2.2.2.2.1,
      hd.2.2.2.2.2.2.1, hd.2.2.2.2.2.2.2.1, hd.2.2.2.2.2.2.2.2.1, hd.2.2.2.2.2.2.2.2.2⟩
  · intro SWITCH_INTERVAL node S R fuel ls env hall
    exact run_loop_never_returns SWITCH_INTERVAL node fuel ls env hall

/-- Claim C6 witness: a drained engine returns gracefully after one
iteration (and its exit state satisfies the drain conditions), while an
engine with one outstanding credit keeps looping until fuel runs out. -/
theorem C6_graceful_return_requires_drain_witness :
    (c6ExitLoop.edm.workers 0).has_unsent_payload = false ∧
    c6ExitLoop.edm.local_regs to_receiver_pkts_sent_id = 0 ∧
    run_loop_from 0 ⟨0, 0⟩ 1 c6BusyLoop (fun _ => c6GracefulEnv) =
      .outOfFuel (iterState 0 ⟨0, 0⟩ 1 c6BusyLoop (fun _ => c6GracefulEnv)) :=
  ⟨(C6_graceful_return_requires_drain.1 0 ⟨0, 0⟩ 4 4 1 c6StartLoop
      (fun _ => c6GracefulEnv) c6ExitLoop rfl).2.2.2.1,
   (C6_graceful_return_requires_drain.1 0 ⟨0, 0⟩ 4 4 1 c6StartLoop
      (fun _ => c6GracefulEnv) c6ExitLoop rfl).2.2.2.2.2.2.1,
   C6_graceful_return_requires_drain.2 0 ⟨0, 0⟩ 4 4 1 c6BusyLoop
      (fun _ => c6GracefulEnv)
      (fun j hj => by
        have hj0 : j = 0 := Nat.lt_one_iff.mp hj
        subst hj0
        exact ⟨by decide, by decide⟩)⟩

/-- Main-loop bookkeeping over `recvForwardState`: the receiver holds one
acked-but-unwritten locally-consumable packet while both sender channels are
completely idle. -/
def c7Loop : LoopState 4 4 :=
  ⟨recvForwardState, 0, 0, .RECEIVER_WAITING_FOR_ETH⟩

/-- The loop state after one iteration from `c7Loop` under a quiet
environment with `SWITCH_INTERVAL = 0`. -/
def c7Next : LoopState 4 4 :=
  nextLoopState 0 ⟨0, 0⟩ c7Loop quietEnv

/-- Claim C7 failing run: in this iteration the sender step reports no
action, yet the receiver step makes observable progress (it executes the
pending packet's local write and advances the write-sent pointer from 0 to
1); the claim says any observable progress resets the idle counter to zero,
but the counter increments from 0 to 1 because `run_receiver_channel_step`
never writes the `receiver_state` variable that the loop compares for
progress detection. -/
theorem C7_receiver_progress_not_counted :
    (run_sender_channel_step (applyEnv c7Loop.edm quietEnv) 0
      quietEnv.sender_eth_txq_busy).2.1 = false ∧
    (run_receiver_channel_step (⟨0, 0⟩ : NodeId) (applyEnv c7Loop.edm quietEnv)
      c7Loop.receiver_state quietEnv.receiver_env).2.2.wrote_local = true ∧
    c7Next.edm.receiver_pointers.wr_sent_ptr.counter = 1 ∧
    c7Loop.edm.receiver_pointers.wr_sent_ptr.counter = 0 ∧
    c7Next.receiver_state = c7Loop.receiver_state ∧
    c7Next.did_nothing_count = 1 := by
  decide

end EdmFabric
